import Mathlib

/-! log-lib: service orchestration and service identity

A shallow embedding of the Go sources

* `independent/independent.go` (the orchestrator: `New`, `AddController`,
  `RequireProxy`, `Pipe`, `Prepare` and the preparation stages),
* `app/service/service.go` (`Inprocess`, `NewExternal`, `NewSecure`),
* `common/data_type/queue.go` (the bounded `Queue`),
* `app/broadcast/broadcast.go` (the loop of `Broadcast.Run`), and
* `static/configuration/db.go` (`query_parameters`).

Go structs are Lean structures, Go slices are lists, Go maps
(`key_value.KeyValue`) are association lists with distinct keys, `uint64`
ports are natural numbers (no arithmetic is done on them), and a Go function
that mutates its receiver and returns an `error` is a Lean function that
returns the outcome together with the new state.  Logging is not modelled.

Code that the sources call but that is not part of them (service-lib,
common-lib, sds) is either modelled from the specification, in definitions
whose comment says so, or taken as a parameter (`Env`, `AppService.Sources`).
Every call that leaves the orchestrator is recorded in `Context.Calls`, so
that "no write is performed" and "no later stage is executed" are statements
about that record.

Structs and slices are copied by value: a copy such as
`serviceConfig := independent.Config.Service` is independent of the original
afterwards.  Go shares the backing array of a slice between such copies; where
the source writes an element in place (`destinationConfig.Instances[0] = ...`)
the model writes it in the copy and the following `SetController` carries it
into the configuration, which gives the same configuration.
-/

namespace LogLib

/-! ## Outcomes of Go functions returning `error` -/

/-- Result of a Go function whose only return value is `error`: `ok` is the
`nil` error, `error` carries the message, `panic` is a run-time panic (index
out of range). -/
inductive Outcome where
  | ok
  | error (msg : String)
  | panic (msg : String)
  deriving DecidableEq, Repr

/-- The call returned the `nil` error. -/
def Outcome.isOk : Outcome → Bool
  | .ok => true
  | _ => false

/-- The call returned a non-nil `error` (it did not panic). -/
def Outcome.isError : Outcome → Bool
  | .error _ => true
  | _ => false

/-! ## `key_value.KeyValue` (common-lib) -/

/-- Modelled from the spec: `key_value.KeyValue` is the Go type
`map[string]interface{}` of common-lib (not under src/); the spec calls
`Controllers` a set of named controllers and `Pipelines` a mapping
`proxy_url → controller_name`.  An association list whose keys are kept
distinct by `Set`. -/
abbrev KeyValue (α : Type) := List (String × α)

namespace KeyValue

/-- The empty map, `key_value.Empty()`. -/
def Empty {α : Type} : KeyValue α := []

/-- Map read `k[name]`. -/
def Get {α : Type} (k : KeyValue α) (name : String) : Option α :=
  List.lookup name k

/-- Map write `k[name] = value`, `KeyValue.Set`: overwrites the entry of an
existing key, adds the entry otherwise. -/
def Set {α : Type} : KeyValue α → String → α → KeyValue α
  | [], name, value => [(name, value)]
  | (n, v) :: rest, name, value =>
    if n = name then (name, value) :: rest else (n, v) :: Set rest name value

/-- `KeyValue.Exist`: `nil` when the key is in the map, an error otherwise
(the rendering of the whole map in the message is left out). -/
def Exist {α : Type} (k : KeyValue α) (name : String) : Except String Unit :=
  match k.Get name with
  | some _ => .ok ()
  | none => .error ("'" ++ name ++ "' not found")

/-- The keys of the map. -/
def Keys {α : Type} (k : KeyValue α) : List String := k.map Prod.fst

end KeyValue

/-! ## `configuration` (service-lib): the persisted configuration schema -/

namespace Configuration

/-- Modelled from the spec: `configuration.ControllerInstance`
(`instances:[{name, instance, port}]`); the fields are the ones
`prepareInstanceConfiguration` sets. -/
structure ControllerInstance where
  Name : String
  Instance : String
  Port : Nat
  deriving DecidableEq, Repr

/-- Modelled from the spec: `configuration.Controller`
(`controllers:[{type, name, instances}]`); the fields are the ones
`PrepareControllerConfiguration` sets and reads. -/
structure Controller where
  Type_ : String
  Name : String
  Instances : List ControllerInstance
  deriving DecidableEq, Repr

/-- Modelled from the spec: `configuration.Proxy` (`proxies:[{url, port}]`). -/
structure Proxy where
  Url : String
  Port : Nat
  deriving DecidableEq, Repr

/-- Modelled from the spec: `configuration.Extension`
(`extensions:[{url, port}]`). -/
structure Extension where
  Url : String
  Port : Nat
  deriving DecidableEq, Repr

/-- Modelled from the spec: `configuration.Service`,
`service{type, url, instance_name, controllers, proxies, extensions}`; the
first three fields are the ones `prepareServiceConfiguration` sets. -/
structure Service where
  Type_ : String
  Url : String
  Instance : String
  Controllers : List Controller
  Proxies : List Proxy
  Extensions : List Extension
  deriving DecidableEq, Repr

/-- The zero value `configuration.Controller{}`. -/
def Controller.zero : Controller := { Type_ := "", Name := "", Instances := [] }

/-- The zero value `configuration.Service{}`. -/
def Service.zero : Service :=
  { Type_ := "", Url := "", Instance := "", Controllers := [], Proxies := [], Extensions := [] }

/-- Modelled from the spec: `configuration.DestinationName`, the
"well-known controller name inside the proxy's config" (the constant is not
under src/). -/
def DestinationName : String := "destination"

/-- Modelled from the spec: `Service.GetController` (service-lib, not under
src/): the first controller entry with the given name, an error when there is
none (the callers test `err == nil`). -/
def Service.GetController (s : Service) (name : String) : Except String Controller :=
  match s.Controllers.find? (fun c => c.Name = name) with
  | some c => .ok c
  | none => .error ("'" ++ name ++ "' controller was not found in '" ++ s.Url ++ "' service's configuration")

/-- Replace the first controller named like `c` by `c`, append `c` when there
is none. -/
def setControllerList (c : Controller) : List Controller → List Controller
  | [] => [c]
  | d :: rest => if d.Name = c.Name then c :: rest else d :: setControllerList c rest

/-- Modelled from the spec: `Service.SetController` (service-lib, not under
src/): the lint "mutates the dependency's stored configuration so its
destination port equals the local controller's port" and stage 3 "ensures a
configuration entry exists, creating one if missing": the entry of that name
is overwritten, or added when missing. -/
def Service.SetController (s : Service) (c : Controller) : Service :=
  { s with Controllers := setControllerList c s.Controllers }

/-- Modelled from the spec: `Service.GetProxy` (service-lib, not under src/):
the local record of the proxy with that url, `nil` when there is none. -/
def Service.GetProxy (s : Service) (url : String) : Option Proxy :=
  s.Proxies.find? (fun p => p.Url = url)

/-- Replace the first proxy with the url of `p` by `p`, append otherwise. -/
def setProxyList (p : Proxy) : List Proxy → List Proxy
  | [] => [p]
  | q :: rest => if q.Url = p.Url then p :: rest else q :: setProxyList p rest

/-- Modelled from the spec: `Service.SetProxy` (service-lib, not under src/):
"if no local record of this proxy exists, store it". -/
def Service.SetProxy (s : Service) (p : Proxy) : Service :=
  { s with Proxies := setProxyList p s.Proxies }

/-- Modelled from the spec: `Service.GetExtension` (service-lib, not under
src/): the local record of the extension with that url, `nil` when absent. -/
def Service.GetExtension (s : Service) (url : String) : Option Extension :=
  s.Extensions.find? (fun e => e.Url = url)

/-- Replace the first extension with the url of `e` by `e`, append otherwise. -/
def setExtensionList (e : Extension) : List Extension → List Extension
  | [] => [e]
  | f :: rest => if f.Url = e.Url then e :: rest else f :: setExtensionList e rest

/-- Modelled from the spec: `Service.SetExtension` (service-lib, not under
src/), the extension analogue of `SetProxy`. -/
def Service.SetExtension (s : Service) (e : Extension) : Service :=
  { s with Extensions := setExtensionList e s.Extensions }

end Configuration

/-! ## The world outside the orchestrator (`dev`, the executable, the network) -/

/-- A call made by the orchestrator to the world outside it. -/
inductive Call where
  | devPrepare
  | devPrepareConfiguration (url : String)
  | devReadServiceConfiguration (url : String)
  | devWriteServiceConfiguration (url : String) (service : Configuration.Service)
  | getCurrentPath
  | getFreePort
  deriving DecidableEq, Repr

/-- Modelled from the spec: `configuration.Context` (service-lib, not under
src/) together with what is reachable through it: `Files` are the stored
service configurations of the dependencies, keyed by url ("the dependency's
stored configuration"), `Calls` is the record of the calls made so far, oldest
first. -/
structure Context where
  Files : KeyValue Configuration.Service
  Calls : List Call
  deriving DecidableEq, Repr

/-- The behaviour of the world that the orchestrator cannot decide: the
results of the calls into service-lib and the operating system whose code is
not under src/.  Every field may look at the context, which holds the calls
made so far. -/
structure Env where
  /-- The error of `dev.Prepare`, `none` for `nil`. -/
  Prepare : Context → Option String
  /-- The result of `dev.PrepareConfiguration`: the stored configurations
  after the dependency was fetched, or the error. -/
  PrepareConfiguration : Context → String → Except String (KeyValue Configuration.Service)
  /-- The result of `configuration.GetCurrentPath`. -/
  GetCurrentPath : Context → Except String String
  /-- The result of `Config.GetFreePort`. -/
  GetFreePort : Context → Nat
  /-- The error of writing the stored configuration of that url, `none` when
  the write is done. -/
  WriteError : Context → String → Option String
  /-- The result of `configuration.ServiceToProxy`. -/
  ServiceToProxy : Configuration.Service → Except String Configuration.Proxy
  /-- The result of `configuration.ServiceToExtension`. -/
  ServiceToExtension : Configuration.Service → Except String Configuration.Extension

/-- Add a call to the record. -/
def Context.record (ctx : Context) (c : Call) : Context :=
  { ctx with Calls := ctx.Calls ++ [c] }

namespace Dev

/-- Modelled from the spec: `dev.ReadServiceConfiguration` (service-lib, not
under src/) reads "the dependency's own service configuration": the stored
configuration of the url, or the zero value and an error when none is
stored. -/
def ReadServiceConfiguration (ctx : Context) (url : String) :
    (Configuration.Service × Option String) × Context :=
  let ctx1 := ctx.record (.devReadServiceConfiguration url)
  match ctx.Files.Get url with
  | some service => ((service, none), ctx1)
  | none => ((Configuration.Service.zero, some ("no service configuration of '" ++ url ++ "'")), ctx1)

/-- Modelled from the spec: `dev.WriteServiceConfiguration` (service-lib, not
under src/) "persists" the dependency's configuration: the stored
configuration of the url becomes the given one, unless the write fails. -/
def WriteServiceConfiguration (env : Env) (ctx : Context) (url : String)
    (service : Configuration.Service) : Option String × Context :=
  let ctx1 := ctx.record (.devWriteServiceConfiguration url service)
  match env.WriteError ctx url with
  | some err => (some err, ctx1)
  | none => (none, { ctx1 with Files := ctx1.Files.Set url service })

end Dev

/-- Modelled from the spec: `configuration.Config` (service-lib, not under
src/): the application name, the service configuration (a struct value, see
`prepareServiceConfiguration`) and the pointer to the context. -/
structure Config where
  Name : String
  Service : Configuration.Service
  Context : Context
  deriving DecidableEq, Repr

/-! ## `controller.Interface` -/

namespace Controller

/-- Modelled from the spec: `controller.Interface` (service-lib, not under
src/), the capability set "declare its own type, declare required extension
URLs, accept a configuration object, accept per-extension configuration":
the two declarations, and what was attached by `AddConfig` and
`AddExtensionConfig` so far. -/
structure Interface where
  ControllerType : String
  RequiredExtensions : List String
  Config : Option Configuration.Controller
  ExtensionConfigs : List (Option Configuration.Extension)
  deriving DecidableEq, Repr

/-- The controller accepts its configuration, `c.AddConfig(&controllerConfig)`. -/
def Interface.AddConfig (c : Interface) (controllerConfig : Configuration.Controller) : Interface :=
  { c with Config := some controllerConfig }

/-- The controller accepts the configuration of one extension. -/
def Interface.AddExtensionConfig (c : Interface) (e : Option Configuration.Extension) : Interface :=
  { c with ExtensionConfigs := c.ExtensionConfigs ++ [e] }

end Controller

/-! ## `strings.Compare` -/

/-- Go's `strings.Compare`: 0 when the strings are equal, -1 or +1 by
lexicographic order otherwise. -/
def stringsCompare (a b : String) : Int :=
  if a = b then 0 else if a < b then -1 else 1

/-! ## `independent.Service`: the orchestrator -/

namespace Independent

/-- The struct `independent.Service` (the logger is left out). -/
structure Service where
  Config : Config
  Controllers : KeyValue Controller.Interface
  Pipelines : KeyValue String
  RequiredProxies : List String
  deriving DecidableEq, Repr

/-- The function `New`: never fails. -/
def New (config : Config) : Except String Service :=
  .ok { Config := config
        Controllers := KeyValue.Empty
        RequiredProxies := []
        Pipelines := KeyValue.Empty }

/-- The method `AddController`. -/
def Service.AddController (independent : Service) (name : String)
    (controller : Controller.Interface) : Service :=
  { independent with Controllers := independent.Controllers.Set name controller }

/-- The method `RequireProxy`. -/
def Service.RequireProxy (independent : Service) (url : String) : Service :=
  { independent with RequiredProxies := independent.RequiredProxies ++ [url] }

/-- The loop of `Pipe` over `RequiredProxies`: `validProxy` after the loop. -/
def validProxyLoop (proxyUrl : String) : List String → Bool
  | [] => false
  | url :: rest =>
    if stringsCompare url proxyUrl = 0 then true else validProxyLoop proxyUrl rest

/-- The method `Pipe`: the error and the orchestrator afterwards. -/
def Service.Pipe (independent : Service) (proxyUrl : String) (name : String) :
    Outcome × Service :=
  let validProxy := validProxyLoop proxyUrl independent.RequiredProxies
  if !validProxy then
    (.error ("proxy '" ++ proxyUrl ++ "' url not required. call independent.RequireProxy"),
      independent)
  else
    match independent.Controllers.Exist name with
    | .error err =>
      (.error ("controller instance '" ++ name ++
          "' not added. call independent.AddController: " ++ err), independent)
    | .ok _ =>
      (.ok, { independent with Pipelines := independent.Pipelines.Set proxyUrl name })

end Independent

/-! ## `app/service/service.go`: service identity -/

namespace AppService

/-- Modelled from the spec: `ServiceType`, the "identifier of a kind of
service ... used to derive environment-variable names" (the declaration is
not under src/; the code converts it with `string(service_type)`). -/
abbrev ServiceType := String

/-- Modelled from the spec: `Limit`, the addressing modes other than
in-process (`Remote`, `This`, `Subscribe`, `Broadcast`); the declaration is
not under src/, the four names are the cases of the `switch`. -/
inductive Limit where
  | REMOTE
  | THIS
  | SUBSCRIBE
  | BROADCAST
  deriving DecidableEq, Repr

/-- Modelled from the spec: the configuration source `app_config` returned by
`configuration.NewService` (sds, not under src/): the environment
configuration, a mapping from keys such as `<NAME>_HOST` to string values. -/
abbrev AppConfig := KeyValue String

/-- Modelled from the spec: `app_config.GetString(key)`, the value "read from
environment configuration keyed" by `key`; the empty string when absent. -/
def AppConfig.GetString (c : AppConfig) (key : String) : String :=
  (KeyValue.Get c key).getD ""

/-- Modelled from the spec: `app_config.Exist(key)`: the key is not
"absent". -/
def AppConfig.Exist (c : AppConfig) (key : String) : Bool :=
  (KeyValue.Get c key).isSome

/-- Modelled from the spec: `credentials.Credentials` (sds, not under src/),
"either a bare public key (peer-identification case) or a keypair obtained
from a secret store (server case)". -/
inductive Credentials where
  | publicKey (public_key : String)
  | keyPair (public_key : String) (private_key : String)
  deriving DecidableEq, Repr

/-- Modelled from the spec: `credentials.New(public_key)`, the bare public
key credentials. -/
def Credentials.New (public_key : String) : Credentials := .publicKey public_key

/-- What `service.go` takes from code that is not under src/. -/
structure Sources where
  /-- The value of `configuration.NewService(DefaultConfiguration(service_type))`. -/
  NewService : ServiceType → AppConfig
  /-- The method `ServiceType.SecretKeyPath`. -/
  SecretKeyPath : ServiceType → String × String
  /-- The method `ServiceType.BroadcastSecretKeyPath`. -/
  BroadcastSecretKeyPath : ServiceType → String × String
  /-- The function `credentials.NewFromVault`. -/
  NewFromVault : String → String → Except String Credentials

/-- The struct `service.Service`; a `nil` pointer to credentials is `none`,
the zero value of an unset string field is the empty string. -/
structure Service where
  Name : String
  Credentials : Option Credentials
  inproc : Bool
  url : String
  broadcast_url : String
  deriving DecidableEq, Repr

/-- The function `Inprocess`. -/
def Inprocess (service_type : ServiceType) : Except String Service :=
  let name := service_type
  .ok { Name := name
        Credentials := none
        inproc := true
        url := "inproc://reply_" ++ name
        broadcast_url := "inproc://pub_" ++ name }

/-- The function `NewExternal`. -/
def NewExternal (src : Sources) (service_type : ServiceType) (limit : Limit) :
    Except String Service :=
  let app_config := src.NewService service_type
  let name := service_type
  let host_env := name ++ "_HOST"
  let port_env := name ++ "_PORT"
  let broadcast_host_env := name ++ "_BROADCAST_HOST"
  let broadcast_port_env := name ++ "_BROADCAST_PORT"
  let s : Service :=
    { Name := name, inproc := false, Credentials := none, url := "", broadcast_url := "" }
  match limit with
  | .REMOTE =>
    .ok { s with url := "tcp://" ++ app_config.GetString host_env ++ ":" ++
                          app_config.GetString port_env }
  | .THIS =>
    .ok { s with url := "tcp://*:" ++ app_config.GetString port_env }
  | .SUBSCRIBE =>
    .ok { s with broadcast_url := "tcp://" ++ app_config.GetString broadcast_host_env ++ ":" ++
                                    app_config.GetString broadcast_port_env }
  | .BROADCAST =>
    .ok { s with broadcast_url := "tcp://*:" ++ app_config.GetString broadcast_port_env }

/-- The function `NewSecure`. -/
def NewSecure (src : Sources) (service_type : ServiceType) (limit : Limit) :
    Except String Service :=
  let app_config := src.NewService service_type
  let name := service_type
  let public_key := name ++ "_PUBLIC_KEY"
  let broadcast_public_key := name ++ "_BROADCAST_PUBLIC_KEY"
  match NewExternal src service_type limit with
  | .error err => .error ("service.New: " ++ err)
  | .ok s =>
    match limit with
    | .REMOTE =>
      if !app_config.Exist public_key then
        .error ("security enabled, but missing " ++ s.Name)
      else
        .ok { s with Credentials := some (Credentials.New public_key) }
    | .THIS =>
      let (bucket, key_name) := src.SecretKeyPath service_type
      match src.NewFromVault bucket key_name with
      | .error err =>
        .error ("vault.GetString for " ++ s.Name ++ " service secret key: " ++ err)
      | .ok creds => .ok { s with Credentials := some creds }
    | .SUBSCRIBE =>
      if !app_config.Exist broadcast_public_key then
        .error ("security enabled, but missing " ++ s.Name)
      else
        .ok { s with Credentials := some (Credentials.New (app_config.GetString broadcast_public_key)) }
    | .BROADCAST =>
      let (bucket, key_name) := src.BroadcastSecretKeyPath service_type
      match src.NewFromVault bucket key_name with
      | .error err =>
        .error ("vault.GetString for " ++ s.Name ++ " service secret key: " ++ err)
      | .ok creds => .ok { s with Credentials := some creds }

/-- The method `Url`. -/
def Service.Url (e : Service) : String := e.url

/-- The method `BroadcastUrl`. -/
def Service.BroadcastUrl (e : Service) : String := e.broadcast_url

end AppService

/-! ## `independent.go`: the preparation stages -/

namespace Independent

/-- The method `prepareServiceConfiguration`.  `len(serviceConfig.Type) == 0`
holds exactly for the empty string. -/
def Service.prepareServiceConfiguration (env : Env) (independent : Service)
    (expectedType : String) : Outcome × Service :=
  let config := independent.Config
  let serviceConfig := independent.Config.Service
  if serviceConfig.Type_.length = 0 then
    let ctx1 := config.Context.record .getCurrentPath
    match env.GetCurrentPath config.Context with
    | .error err =>
      (.error ("failed to get current executable path: " ++ err),
        { independent with Config := { config with Context := ctx1 } })
    | .ok exePath =>
      let serviceConfig : Configuration.Service :=
        { Type_ := expectedType, Url := exePath, Instance := config.Name ++ " 1",
          Controllers := [], Proxies := [], Extensions := [] }
      (.ok, { independent with Config := { config with Service := serviceConfig, Context := ctx1 } })
  else if serviceConfig.Type_ ≠ expectedType then
    (.error ("service type is overwritten. expected '" ++ expectedType ++ "', not '" ++
        serviceConfig.Type_ ++ "'"), independent)
  else
    (.ok, { independent with Config := { config with Service := serviceConfig } })

/-- The method `prepareInstanceConfiguration`.  `serviceConfig` is a copy of
the struct value `independent.Config.Service`; `uint64(port)` is the port
modulo 2^64. -/
def Service.prepareInstanceConfiguration (env : Env) (independent : Service)
    (controllerConfig : Configuration.Controller) : Outcome × Service :=
  let config := independent.Config
  let serviceConfig := independent.Config.Service
  if controllerConfig.Instances.length = 0 then
    let port := env.GetFreePort config.Context
    let ctx1 := config.Context.record .getFreePort
    let sourceInstance : Configuration.ControllerInstance :=
      { Name := controllerConfig.Name
        Instance := controllerConfig.Name ++ "1"
        Port := port % 2 ^ 64 }
    let controllerConfig :=
      { controllerConfig with Instances := controllerConfig.Instances ++ [sourceInstance] }
    let serviceConfig := serviceConfig.SetController controllerConfig
    (.ok, { independent with Config := { config with Service := serviceConfig, Context := ctx1 } })
  else
    match controllerConfig.Instances[0]? with
    | none => (.panic "index out of range [0] with length 0", independent)
    | some first =>
      if first.Port = 0 then
        (.error "the port should not be 0 in the source", independent)
      else
        (.ok, { independent with Config := { config with Service := serviceConfig } })

/-- The method `PrepareControllerConfiguration`.  In the `else` branch the
source declares a new `controllerConfig` with `:=`, which shadows the outer
variable: the outer one keeps the value `GetController` returned with its
error (the zero value `Controller{}`), and that is what
`prepareInstanceConfiguration` receives.  At the end the local copy
`serviceConfig` is stored into `independent.Config.Service`.  The controller
lists of the copies are independent lists here; in Go they share a backing
array while it has spare capacity, and then the element appended here can be
overwritten by the `append` inside `prepareInstanceConfiguration`: the model
is the code for lists without spare capacity, the empty list among them. -/
def Service.PrepareControllerConfiguration (env : Env) (independent : Service)
    (name : String) (as : String) : Outcome × Service :=
  let serviceConfig := independent.Config.Service
  let found := serviceConfig.GetController name
  let controllerConfig : Configuration.Controller :=
    match found with
    | .ok c => c
    | .error _ => Configuration.Controller.zero
  let typeError : Bool :=
    match found with
    | .ok c => c.Type_ ≠ as
    | .error _ => false
  if typeError then
    (.error ("controller expected to be of '" ++ as ++ "' type, not '" ++
        controllerConfig.Type_ ++ "'"), independent)
  else
    let serviceConfig : Configuration.Service :=
      match found with
      | .ok _ => serviceConfig
      | .error _ =>
        { serviceConfig with
          Controllers := serviceConfig.Controllers ++ [{ Type_ := as, Name := name, Instances := [] }] }
    match independent.prepareInstanceConfiguration env controllerConfig with
    | (.error err, independent1) =>
      (.error ("failed preparing '" ++ controllerConfig.Name ++
          "' controller instance configuration: " ++ err), independent1)
    | (.panic msg, independent1) => (.panic msg, independent1)
    | (.ok, independent1) =>
      (.ok, { independent1 with Config := { independent1.Config with Service := serviceConfig } })

/-- The loop of `prepareControllerConfigurations` over the controllers still
to visit (a Go map is visited in an unspecified order; here in the order of
the association list). -/
def prepareControllersLoop (env : Env) :
    List (String × Controller.Interface) → Service → Outcome × Service
  | [], independent => (.ok, independent)
  | (name, c) :: rest, independent =>
    match independent.PrepareControllerConfiguration env name c.ControllerType with
    | (.error err, independent1) =>
      (.error ("prepare '" ++ name ++ "' controller configuration as '" ++ c.ControllerType ++
          "' type: " ++ err), independent1)
    | (.panic msg, independent1) => (.panic msg, independent1)
    | (.ok, independent1) => prepareControllersLoop env rest independent1

/-- The method `prepareControllerConfigurations`: after the loop the copy of
`independent.Config.Service` taken before the loop is stored back. -/
def Service.prepareControllerConfigurations (env : Env) (independent : Service) :
    Outcome × Service :=
  let serviceConfig := independent.Config.Service
  match prepareControllersLoop env independent.Controllers independent with
  | (.ok, independent1) =>
    (.ok, { independent1 with Config := { independent1.Config with Service := serviceConfig } })
  | failed => failed

/-- The method `prepareConfiguration`. -/
def Service.prepareConfiguration (env : Env) (independent : Service) (expectedType : String) :
    Outcome × Service :=
  match independent.prepareServiceConfiguration env expectedType with
  | (.error err, independent1) =>
    (.error ("prepareServiceConfiguration as " ++ expectedType ++ ": " ++ err), independent1)
  | (.panic msg, independent1) => (.panic msg, independent1)
  | (.ok, independent1) =>
    let serviceConfig := independent1.Config.Service
    match independent1.prepareControllerConfigurations env with
    | (.error err, independent2) =>
      (.error ("prepareControllerConfigurations: " ++ err), independent2)
    | (.panic msg, independent2) => (.panic msg, independent2)
    | (.ok, independent2) =>
      (.ok, { independent2 with Config := { independent2.Config with Service := serviceConfig } })

/-- The function `preparePipelineConfiguration(config, proxyUrl,
controllerName, logger)`: the error and the configuration afterwards (the
dependency's stored configuration is in `config.Context.Files`).
`Instances[0]` on an empty slice panics.  The assignment
`destinationConfig.Instances[0] = destinationInstanceConfig` writes the first
element; `SetController` then puts the controller back into `proxyConfig`. -/
def preparePipelineConfiguration (env : Env) (config : Config) (proxyUrl : String)
    (controllerName : String) : Outcome × Config :=
  let ((proxyConfig, readErr), ctx1) := Dev.ReadServiceConfiguration config.Context proxyUrl
  let config1 : Config := { config with Context := ctx1 }
  match readErr with
  | some err => (.error ("dev.ReadServiceConfiguration of '" ++ proxyUrl ++ "': " ++ err), config1)
  | none =>
    match proxyConfig.GetController Configuration.DestinationName with
    | .error err =>
      (.error ("getting dependency proxy's destination configuration failed: " ++ err), config1)
    | .ok destinationConfig =>
      match config.Service.GetController controllerName with
      | .error err =>
        (.error ("getting '" ++ controllerName ++
            "' controller from independent configuration failed: " ++ err), config1)
      | .ok controllerConfig =>
        match destinationConfig.Instances[0]? with
        | none => (.panic "index out of range [0] with length 0", config1)
        | some destinationInstanceConfig =>
          match controllerConfig.Instances[0]? with
          | none => (.panic "index out of range [0] with length 0", config1)
          | some instanceConfig =>
            if destinationInstanceConfig.Port ≠ instanceConfig.Port then
              let destinationInstanceConfig :=
                { destinationInstanceConfig with Port := instanceConfig.Port }
              let destinationConfig :=
                { destinationConfig with
                  Instances := destinationConfig.Instances.set 0 destinationInstanceConfig }
              let proxyConfig := proxyConfig.SetController destinationConfig
              match Dev.WriteServiceConfiguration env ctx1 proxyUrl proxyConfig with
              | (some err, ctx2) =>
                (.error ("dev.WriteServiceConfiguration for '" ++ proxyUrl ++ "': " ++ err),
                  { config with Context := ctx2 })
              | (none, ctx2) => (.ok, { config with Context := ctx2 })
            else
              (.ok, config1)

/-- The loop of the method `preparePipelineConfiguration` over
`RequiredProxies`: `found` after the loop. -/
def foundLoop (proxyUrl : String) : List String → Bool
  | [] => false
  | requiredProxy :: rest =>
    if stringsCompare proxyUrl requiredProxy = 0 then true else foundLoop proxyUrl rest

/-- The method `preparePipelineConfiguration`. -/
def Service.preparePipelineConfiguration (env : Env) (independent : Service)
    (proxyUrl : String) (controllerName : String) : Outcome × Service :=
  let found := foundLoop proxyUrl independent.RequiredProxies
  if !found then
    (.error ("proxy '" ++ proxyUrl ++ "' not found. add using independent.RequireProxy()"),
      independent)
  else
    match independent.Controllers.Exist controllerName with
    | .error err =>
      (.error ("independent.Controllers.Exist of '" ++ controllerName ++ "': " ++ err), independent)
    | .ok _ =>
      match Independent.preparePipelineConfiguration env independent.Config proxyUrl controllerName with
      | (.error err, config1) =>
        (.error ("service.preparePipelineConfiguration: " ++ err),
          { independent with Config := config1 })
      | (.panic msg, config1) => (.panic msg, { independent with Config := config1 })
      | (.ok, config1) => (.ok, { independent with Config := config1 })

/-- The function `prepareContext`: calls `dev.Prepare`. -/
def prepareContext (env : Env) (context : Context) : Outcome × Context :=
  let ctx1 := context.record .devPrepare
  match env.Prepare context with
  | some err => (.error ("failed to prepare the context: " ++ err), ctx1)
  | none => (.ok, ctx1)

/-- The call `dev.PrepareConfiguration(config.Context, url, logger)`: the
error, and the context after the dependency was fetched. -/
def devPrepareConfiguration (env : Env) (context : Context) (url : String) :
    Option String × Context :=
  let ctx1 := context.record (.devPrepareConfiguration url)
  match env.PrepareConfiguration context url with
  | .error err => (some err, ctx1)
  | .ok files => (none, { ctx1 with Files := files })

/-- The function `prepareProxyConfiguration`.  The error of
`dev.ReadServiceConfiguration` is overwritten by the one of `ServiceToProxy`
and never looked at. -/
def prepareProxyConfiguration (env : Env) (requiredProxy : String) (config : Config) :
    Outcome × Config :=
  match devPrepareConfiguration env config.Context requiredProxy with
  | (some err, ctx1) =>
    (.error ("dev.PrepareConfiguration on " ++ requiredProxy ++ ": " ++ err),
      { config with Context := ctx1 })
  | (none, ctx1) =>
    let ((service, _), ctx2) := Dev.ReadServiceConfiguration ctx1 requiredProxy
    let config2 : Config := { config with Context := ctx2 }
    match env.ServiceToProxy service with
    | .error err => (.error ("proxy.ServiceToProxy: " ++ err), config2)
    | .ok converted =>
      match config.Service.GetProxy requiredProxy with
      | none => (.ok, { config2 with Service := config.Service.SetProxy converted })
      | some proxyConfiguration =>
        if stringsCompare proxyConfiguration.Url converted.Url ≠ 0 then
          (.error ("the proxy urls are not matching. in your configuration: " ++
              proxyConfiguration.Url ++ ", in the deps: " ++ converted.Url), config2)
        else if proxyConfiguration.Port ≠ converted.Port then
          (.error ("the proxy ports are not matching. in your configuration: " ++
              toString proxyConfiguration.Port ++ ", in the deps: " ++ toString converted.Port),
            config2)
        else
          (.ok, config2)

/-- The function `prepareExtensionConfiguration`.  The port test of the
source compares `extensionConfiguration.Port` with itself. -/
def prepareExtensionConfiguration (env : Env) (requiredExtension : String) (config : Config) :
    Outcome × Config :=
  match devPrepareConfiguration env config.Context requiredExtension with
  | (some err, ctx1) =>
    (.error ("dev.PrepareConfiguration on " ++ requiredExtension ++ ": " ++ err),
      { config with Context := ctx1 })
  | (none, ctx1) =>
    let ((service, _), ctx2) := Dev.ReadServiceConfiguration ctx1 requiredExtension
    let config2 : Config := { config with Context := ctx2 }
    match env.ServiceToExtension service with
    | .error err => (.error ("proxy.ServiceToProxy: " ++ err), config2)
    | .ok converted =>
      match config.Service.GetExtension requiredExtension with
      | none => (.ok, { config2 with Service := config.Service.SetExtension converted })
      | some extensionConfiguration =>
        if stringsCompare extensionConfiguration.Url converted.Url ≠ 0 then
          (.error ("the extension url in your '" ++ extensionConfiguration.Url ++
              "' configuration not matches to '" ++ converted.Url ++ "' in the dependency"),
            config2)
        else if extensionConfiguration.Port ≠ extensionConfiguration.Port then
          (.error ("your extension port '" ++ toString extensionConfiguration.Port ++
              "' not matches to '" ++ toString converted.Port ++ "' port in the dependency"),
            config2)
        else
          (.ok, config2)

/-- The method `requiredControllerExtensions`. -/
def Service.requiredControllerExtensions (independent : Service) : List String :=
  independent.Controllers.foldl (fun extensions e => extensions ++ e.2.RequiredExtensions) []

/-- The loop of `Prepare` over `RequiredProxies` calling
`prepareProxyConfiguration`. -/
def prepareProxiesLoop (env : Env) : List String → Service → Outcome × Service
  | [], independent => (.ok, independent)
  | requiredProxy :: rest, independent =>
    match prepareProxyConfiguration env requiredProxy independent.Config with
    | (.error err, config1) =>
      (.error ("service.prepareProxyConfiguration of " ++ requiredProxy ++ ": " ++ err),
        { independent with Config := config1 })
    | (.panic msg, config1) => (.panic msg, { independent with Config := config1 })
    | (.ok, config1) => prepareProxiesLoop env rest { independent with Config := config1 }

/-- The loop of `Prepare` over `Pipelines` calling the method
`preparePipelineConfiguration`. -/
def preparePipelinesLoop (env : Env) : List (String × String) → Service → Outcome × Service
  | [], independent => (.ok, independent)
  | (requiredProxy, controllerName) :: rest, independent =>
    match independent.preparePipelineConfiguration env requiredProxy controllerName with
    | (.error err, independent1) =>
      (.error ("preparePipelineConfiguration '" ++ requiredProxy ++ "'=>'" ++ controllerName ++
          "': " ++ err), independent1)
    | (.panic msg, independent1) => (.panic msg, independent1)
    | (.ok, independent1) => preparePipelinesLoop env rest independent1

/-- The loop of `Prepare` over the required extensions calling
`prepareExtensionConfiguration`. -/
def prepareExtensionsLoop (env : Env) : List String → Service → Outcome × Service
  | [], independent => (.ok, independent)
  | requiredExtension :: rest, independent =>
    match prepareExtensionConfiguration env requiredExtension independent.Config with
    | (.error err, config1) =>
      (.error ("service.prepareExtensionConfiguration of " ++ requiredExtension ++ ": " ++ err),
        { independent with Config := config1 })
    | (.panic msg, config1) => (.panic msg, { independent with Config := config1 })
    | (.ok, config1) => prepareExtensionsLoop env rest { independent with Config := config1 }

/-- The last loop of `Prepare`: every controller accepts its configuration and
the configuration of each extension it requires. -/
def lintControllersLoop :
    List (String × Controller.Interface) → Service → Outcome × Service
  | [], independent => (.ok, independent)
  | (name, c) :: rest, independent =>
    match independent.Config.Service.GetController name with
    | .error err =>
      (.error ("c '" ++ name ++ "' registered in the service, no config found: " ++ err),
        independent)
    | .ok controllerConfig =>
      let c1 := c.AddConfig controllerConfig
      let c2 := c1.RequiredExtensions.foldl
        (fun (c : Controller.Interface) extensionUrl =>
          c.AddExtensionConfig (independent.Config.Service.GetExtension extensionUrl)) c1
      lintControllersLoop rest
        { independent with Controllers := independent.Controllers.Set name c2 }

/-- The part of `Prepare` after the preparation of the configuration: proxies
and pipelines, extensions, and the controllers. -/
def Service.prepareDependencies (env : Env) (independent : Service) : Outcome × Service :=
  let afterProxies : Outcome × Service :=
    if independent.RequiredProxies.length > 0 then
      match prepareProxiesLoop env independent.RequiredProxies independent with
      | (.ok, independent1) =>
        if independent1.Pipelines.length = 0 then
          (.error "no pipepline to lint the proxy to the controller", independent1)
        else
          preparePipelinesLoop env independent1.Pipelines independent1
      | failed => failed
    else
      (.ok, independent)
  match afterProxies with
  | (.ok, independent2) =>
    let requiredExtensions := independent2.requiredControllerExtensions
    let afterExtensions : Outcome × Service :=
      if requiredExtensions.length > 0 then
        prepareExtensionsLoop env requiredExtensions independent2
      else
        (.ok, independent2)
    match afterExtensions with
    | (.ok, independent3) => lintControllersLoop independent3.Controllers independent3
    | failed => failed
  | failed => failed

/-- The method `Prepare`. -/
def Service.Prepare (env : Env) (independent : Service) (as : String) : Outcome × Service :=
  if independent.Controllers.length = 0 then
    (.error "no Controllers. call independent.AddController", independent)
  else
    match prepareContext env independent.Config.Context with
    | (.error err, ctx1) =>
      (.error ("service.prepareContext: " ++ err),
        { independent with Config := { independent.Config with Context := ctx1 } })
    | (.panic msg, ctx1) =>
      (.panic msg, { independent with Config := { independent.Config with Context := ctx1 } })
    | (.ok, ctx1) =>
      let independent1 : Service :=
        { independent with Config := { independent.Config with Context := ctx1 } }
      match independent1.prepareConfiguration env as with
      | (.error err, independent2) => (.error ("prepareConfiguration: " ++ err), independent2)
      | (.panic msg, independent2) => (.panic msg, independent2)
      | (.ok, independent2) => independent2.prepareDependencies env

end Independent

/-! ## Sequences of registration calls -/

namespace Independent

/-- A call of one of the three registration methods of the orchestrator. -/
inductive Registration where
  | addController (name : String) (controller : Controller.Interface)
  | requireProxy (url : String)
  | pipe (proxyUrl : String) (name : String)
  deriving DecidableEq, Repr

/-- The orchestrator after one registration call; the error of `Pipe`, if
any, is dropped: a failing `Pipe` is a call like the others. -/
def Service.register (independent : Service) : Registration → Service
  | .addController name controller => independent.AddController name controller
  | .requireProxy url => independent.RequireProxy url
  | .pipe proxyUrl name => (independent.Pipe proxyUrl name).2

/-- The orchestrator after a sequence of registration calls, first call
first. -/
def Service.registerAll (independent : Service) : List Registration → Service
  | [] => independent
  | call :: rest => (independent.register call).registerAll rest

end Independent

/-- The spec's condition on `Pipelines`: every entry `proxy_url →
controller_name` names an element of `RequiredProxies` and the name of an
added controller. -/
def WellFormedPipelines (s : Independent.Service) : Prop :=
  ∀ e ∈ s.Pipelines, e.1 ∈ s.RequiredProxies ∧ e.2 ∈ s.Controllers.Keys

/-! ## `common/data_type/queue.go`: the bounded queue -/

namespace DataType

/-- The struct `Queue`: `l` is the `container/list` list, front first, and
`length` the capacity. -/
structure Queue (α : Type) where
  l : List α
  length : Nat
  deriving DecidableEq, Repr

/-- The function `NewQueue`. -/
def NewQueue {α : Type} : Queue α :=
  { length := 1000, l := [] }

/-- The method `Len`. -/
def Queue.Len {α : Type} (q : Queue α) : Nat := q.l.length

/-- The method `IsEmpty`. -/
def Queue.IsEmpty {α : Type} (q : Queue α) : Bool := q.l.length == 0

/-- The method `IsFull`. -/
def Queue.IsFull {α : Type} (q : Queue α) : Bool := q.l.length == q.length

/-- The method `Pop`, `q.l.Remove(q.l.Back())`: the last element of the list
is removed and returned.  On an empty list `Back()` is `nil` and `Remove(nil)`
panics: `none`. -/
def Queue.Pop {α : Type} (q : Queue α) : Option (α × Queue α) :=
  match q.l.getLast? with
  | none => none
  | some item => some (item, { q with l := q.l.dropLast })

/-- The method `Push`: `none` when the `Pop` inside it panics. -/
def Queue.Push {α : Type} (q : Queue α) (item : α) : Option (Queue α) :=
  if q.IsFull then
    match q.Pop with
    | none => none
    | some (_, q1) => some { q1 with l := q1.l ++ [item] }
  else
    some { q with l := q.l ++ [item] }

/-- A call of `Push` or `Pop`. -/
inductive QueueOp (α : Type) where
  | push (item : α)
  | pop
  deriving DecidableEq, Repr

/-- The queue after a sequence of calls, first call first; `none` when one of
them panics (a `Pop` on the empty queue). -/
def Queue.run {α : Type} : Queue α → List (QueueOp α) → Option (Queue α)
  | q, [] => some q
  | q, .push item :: rest =>
    match q.Push item with
    | none => none
    | some q1 => q1.run rest
  | q, .pop :: rest =>
    match q.Pop with
    | none => none
    | some (_, q1) => q1.run rest

end DataType

/-! ## `app/broadcast/broadcast.go`: the broadcaster -/

namespace AppBroadcast

/-- Modelled from the spec: `message.Broadcast` (gosds, not under src/), the
"BroadcastMessage — {topic: string, payload: bytes}"; bytes are numbers below
256. -/
structure Message where
  Topic : String
  Payload : List Nat
  deriving DecidableEq, Repr

/-- Modelled from the spec: `message.Broadcast.ToBytes` (gosds, not under
src/): the broadcaster publishes "(topic, payload) as a two-frame message", so
the bytes of a message are its payload. -/
def Message.ToBytes (m : Message) : List Nat := m.Payload

/-- A part handed to `zmq.Socket.SendMessage`, which sends one frame per
part: a string or a byte slice. -/
inductive Part where
  | text (s : String)
  | bytes (b : List Nat)
  deriving DecidableEq, Repr

/-- The `zmq.Socket` as far as `Run` uses it: the endpoints it was asked to
bind and the multi-part messages handed to `SendMessage`, oldest first. -/
structure Socket where
  Bound : List String
  Sent : List (List Part)
  deriving DecidableEq, Repr

/-- The results of the calls into `zmq` (not under src/). -/
structure Zmq where
  /-- The error of `socket.Bind(endpoint)`, `none` for `nil`. -/
  BindError : Socket → String → Option String
  /-- The error of `socket.SendMessage(parts...)`, `none` for `nil`. -/
  SendError : Socket → List Part → Option String

/-- The struct `Broadcast` (the logger is left out): `BroadcastPort` is the
value of `b.service.BroadcastPort()`, `In` holds the messages that the channel
`In` will deliver, in the order of delivery. -/
structure Broadcast where
  BroadcastPort : String
  socket : Socket
  In : List Message
  deriving DecidableEq, Repr

/-- How `Run` stops looping: `Fatal` logs and terminates the process; when the
channel has delivered all its messages the loop waits at `<-b.In`. -/
inductive Stop where
  | fatal (msg : String)
  | waiting
  deriving DecidableEq, Repr

/-- The `for` loop of `Run` on the messages still to be delivered: receive one
message, send it as the two parts `Topic`, `ToBytes()`, and stop with `Fatal`
when the send fails.  Returned are the way the loop stops, the socket, and the
messages never received. -/
def runLoop (zmq : Zmq) : List Message → Socket → Stop × Socket × List Message
  | [], socket => (.waiting, socket, [])
  | broadcast :: rest, socket =>
    let parts := [Part.text broadcast.Topic, Part.bytes broadcast.ToBytes]
    let socket1 : Socket := { socket with Sent := socket.Sent ++ [parts] }
    match zmq.SendError socket parts with
    | some err => (.fatal ("socket error to send message: " ++ err), socket1, rest)
    | none => runLoop zmq rest socket1

/-- The method `Run`. -/
def Broadcast.Run (zmq : Zmq) (b : Broadcast) : Stop × Broadcast :=
  let endpoint := "tcp://*:" ++ b.BroadcastPort
  let socket1 : Socket := { b.socket with Bound := b.socket.Bound ++ [endpoint] }
  match zmq.BindError b.socket endpoint with
  | some err =>
    (.fatal ("could not listen to publisher: " ++ err), { b with socket := socket1 })
  | none =>
    match runLoop zmq b.In socket1 with
    | (stop, socket2, rest) => (stop, { b with socket := socket2, In := rest })

end AppBroadcast

/-- The spec's "two-frame message `[topic, payload_bytes]`" of a broadcast
message. -/
def twoFrames (m : AppBroadcast.Message) : List AppBroadcast.Part :=
  [.text m.Topic, .bytes m.ToBytes]

/-- The condition kept by the queue operations: the capacity is the 1000 of
`NewQueue` and at most that many elements are stored. -/
def QueueInvariant {α : Type} (q : DataType.Queue α) : Prop :=
  q.length = 1000 ∧ q.l.length ≤ 1000

/-! ## `static/configuration/db.go`: the SQL filter -/

namespace StaticConfiguration

/-- Modelled from the spec: `topic.TopicFilter` (sds, not under src/): the
five lists of strings that `query_parameters` reads. -/
structure TopicFilter where
  Organizations : List String
  Projects : List String
  NetworkIds : List String
  Groups : List String
  Smartcontracts : List String
  deriving DecidableEq, Repr

/-- Go's `strings.Repeat(s, count)` for a count that is not negative: `count`
copies of `s`. -/
def stringsRepeat (s : String) : Nat → String
  | 0 => ""
  | count + 1 => s ++ stringsRepeat s count

/-- The function `query_parameters`: the query fragment and the arguments.
Each block of the source runs when the length `l` of its list is positive,
where `l - 1` is not negative. -/
def query_parameters (t : TopicFilter) : String × List String :=
  let query := ""
  let args : List String := []
  let l := t.Organizations.length
  let (query, args) :=
    if l > 0 then
      (query ++ (" AND c.organization IN (?" ++ stringsRepeat ",?" (l - 1) ++ ")"),
        args ++ t.Organizations)
    else (query, args)
  let l := t.Projects.length
  let (query, args) :=
    if l > 0 then
      (query ++ (" AND c.project IN (?" ++ stringsRepeat ",?" (l - 1) ++ ")"),
        args ++ t.Projects)
    else (query, args)
  let l := t.NetworkIds.length
  let (query, args) :=
    if l > 0 then
      (query ++ (" AND c.network_id IN (?" ++ stringsRepeat ",?" (l - 1) ++ ")"),
        args ++ t.NetworkIds)
    else (query, args)
  let l := t.Groups.length
  let (query, args) :=
    if t.Groups.length > 0 then
      (query ++ (" AND c.group_name IN (?" ++ stringsRepeat ",?" (l - 1) ++ ")"),
        args ++ t.Groups)
    else (query, args)
  let l := t.Smartcontracts.length
  let (query, args) :=
    if t.Smartcontracts.length > 0 then
      (query ++ (" AND c.smartcontract_name IN (?" ++ stringsRepeat ",?" (l - 1) ++ ")"),
        args ++ t.Smartcontracts)
    else (query, args)
  (query, args)

end StaticConfiguration

/-- The number of occurrences of a character in a string. -/
def countChar (c : Char) (s : String) : Nat := s.data.count c

/-- The clause of one field of the filter, in the words of the claim: nothing
for an empty list, and otherwise `opening`, which ends with the first
placeholder, one more `,?` for each further value, and the closing bracket. -/
def inClause (opening : String) (values : List String) : String :=
  if values = [] then ""
  else opening ++ StaticConfiguration.stringsRepeat ",?" (values.length - 1) ++ ")"

/-- The socket after the given messages were handed to `SendMessage`, each as
its two frames, in the order of the list. -/
def sentAfter (socket : AppBroadcast.Socket) (msgs : List AppBroadcast.Message) :
    AppBroadcast.Socket :=
  { socket with Sent := socket.Sent ++ msgs.map twoFrames }

/-- The socket of the broadcaster after `Bind` and after the first `k`
messages that `In` delivers were handed to `SendMessage`. -/
def socketAfter (b : AppBroadcast.Broadcast) (k : Nat) : AppBroadcast.Socket :=
  sentAfter { b.socket with Bound := b.socket.Bound ++ ["tcp://*:" ++ b.BroadcastPort] }
    (b.In.take k)

/-! ## Concrete states used to evaluate the definitions -/

/-- Sources in which every service type sees the same six settings and the
vault holds no secret. -/
def coreSources : AppService.Sources :=
  { NewService := fun _ =>
      [("CORE_HOST", "127.0.0.1"), ("CORE_PORT", "5000"),
       ("CORE_BROADCAST_HOST", "10.0.0.7"), ("CORE_BROADCAST_PORT", "5555"),
       ("CORE_PUBLIC_KEY", "remote-key"), ("CORE_BROADCAST_PUBLIC_KEY", "broadcast-key")],
    SecretKeyPath := fun t => ("SDS_SERVICES", t ++ "_SECRET_KEY"),
    BroadcastSecretKeyPath := fun t => ("SDS_SERVICES", t ++ "_BROADCAST_SECRET_KEY"),
    NewFromVault := fun _ _ => .error "vault is sealed" }

/-- A context with no stored configuration and no call made. -/
def emptyContext : Context := { Files := [], Calls := [] }

/-- A configuration named "app" whose service configuration is the zero value. -/
def emptyConfig : Config :=
  { Name := "app", Service := Configuration.Service.zero, Context := emptyContext }

/-- A controller of type "REPLIER" with no required extension. -/
def replier : Controller.Interface :=
  { ControllerType := "REPLIER", RequiredExtensions := [], Config := none, ExtensionConfigs := [] }

/-- The orchestrator after `New`, `RequireProxy("proxy")`. -/
def proxyOnlyState : Independent.Service :=
  { Config := emptyConfig, Controllers := [], Pipelines := [], RequiredProxies := ["proxy"] }

/-- The orchestrator after `New`, `AddController("main", replier)`,
`RequireProxy("proxy")`. -/
def oneControllerState : Independent.Service :=
  { Config := emptyConfig, Controllers := [("main", replier)], Pipelines := [],
    RequiredProxies := ["proxy"] }

/-- A world in which every call succeeds: the executable is "/bin/app", the
free port is 4000, fetching a dependency leaves the stored configurations as
they are, and a service converts to the descriptor of its url with port 80. -/
def quietEnv : Env :=
  { Prepare := fun _ => none,
    PrepareConfiguration := fun ctx _ => .ok ctx.Files,
    GetCurrentPath := fun _ => .ok "/bin/app",
    GetFreePort := fun _ => 4000,
    WriteError := fun _ _ => none,
    ServiceToProxy := fun service => .ok { Url := service.Url, Port := 80 },
    ServiceToExtension := fun service => .ok { Url := service.Url, Port := 80 } }

/-- The orchestrator with no controller, one required proxy and one pipeline
entry. -/
def noControllerState : Independent.Service :=
  { Config := emptyConfig, Controllers := [], Pipelines := [("proxy", "main")],
    RequiredProxies := ["proxy"] }

/-- The stored configuration of the dependency "proxy": its destination
controller listens on port 5001. -/
def storedProxy : Configuration.Service :=
  { Type_ := "PROXY", Url := "proxy", Instance := "proxy 1",
    Controllers :=
      [{ Type_ := "REPLIER", Name := "source",
         Instances := [{ Name := "source", Instance := "source1", Port := 5000 }] },
       { Type_ := "REPLIER", Name := "destination",
         Instances := [{ Name := "destination", Instance := "destination1", Port := 5001 },
                       { Name := "destination", Instance := "destination2", Port := 5002 }] }],
    Proxies := [], Extensions := [] }

/-- The local controller "main" with its first instance on port 4001. -/
def mainController : Configuration.Controller :=
  { Type_ := "REPLIER", Name := "main",
    Instances := [{ Name := "main", Instance := "main1", Port := 4001 }] }

/-- A local configuration with the controller "main" on port 4001, and the
dependency "proxy" stored with destination port 5001. -/
def lintConfig : Config :=
  { Name := "app",
    Service := { Type_ := "INDEPENDENT", Url := "/bin/app", Instance := "app 1",
                 Controllers := [mainController], Proxies := [], Extensions := [] },
    Context := { Files := [("proxy", storedProxy)], Calls := [] } }

/-- The destination controller of `storedProxy`. -/
def storedDestination : Configuration.Controller :=
  { Type_ := "REPLIER", Name := "destination",
    Instances := [{ Name := "destination", Instance := "destination1", Port := 5001 },
                  { Name := "destination", Instance := "destination2", Port := 5002 }] }

/-- The local configuration `lintConfig` after one run of the lint in the
quiet world. -/
def lintedConfig : Config :=
  (Independent.preparePipelineConfiguration quietEnv lintConfig "proxy" "main").2

/-- A configuration of type "INDEPENDENT" that has no controller entry yet. -/
def typedConfig : Config :=
  { Name := "app",
    Service := { Type_ := "INDEPENDENT", Url := "/bin/app", Instance := "app 1",
                 Controllers := [], Proxies := [], Extensions := [] },
    Context := emptyContext }

/-- The orchestrator after `New(typedConfig)`, `AddController("main",
replier)`: one registered controller, no proxy, no pipeline. -/
def registeredState : Independent.Service :=
  { Config := typedConfig, Controllers := [("main", replier)], Pipelines := [],
    RequiredProxies := [] }

/-- The orchestrator whose configuration already has the entry of the
registered controller "main", of the declared type, with its first instance on
port 0. -/
def zeroPortState : Independent.Service :=
  { Config :=
      { Name := "app",
        Service := { Type_ := "INDEPENDENT", Url := "/bin/app", Instance := "app 1",
                     Controllers :=
                       [{ Type_ := "REPLIER", Name := "main",
                          Instances := [{ Name := "main", Instance := "main1", Port := 0 }] }],
                     Proxies := [], Extensions := [] },
        Context := emptyContext },
    Controllers := [("main", replier)], Pipelines := [], RequiredProxies := [] }

/-- The stored configuration of the dependency "ext". -/
def storedExtension : Configuration.Service :=
  { Type_ := "EXTENSION", Url := "ext", Instance := "ext 1",
    Controllers := [], Proxies := [], Extensions := [] }

/-- A local configuration that records the dependency "ext" on port 81, both
as a proxy and as an extension; in the quiet world the dependency converts to
the descriptor with url "ext" and port 80. -/
def recordedConfig : Config :=
  { Name := "app",
    Service := { Type_ := "INDEPENDENT", Url := "/bin/app", Instance := "app 1",
                 Controllers := [], Proxies := [{ Url := "ext", Port := 81 }],
                 Extensions := [{ Url := "ext", Port := 81 }] },
    Context := { Files := [("ext", storedExtension)], Calls := [] } }

/-- A local configuration with the controller "main" on port 4001, and the
dependency "proxy" stored with a destination controller that has no
instance. -/
def noInstanceConfig : Config :=
  { Name := "app",
    Service := { Type_ := "INDEPENDENT", Url := "/bin/app", Instance := "app 1",
                 Controllers := [mainController], Proxies := [], Extensions := [] },
    Context :=
      { Files := [("proxy",
          { Type_ := "PROXY", Url := "proxy", Instance := "proxy 1",
            Controllers := [{ Type_ := "REPLIER", Name := "destination", Instances := [] }],
            Proxies := [], Extensions := [] })],
        Calls := [] } }

/-- The quiet world, except that the path of the executable cannot be
obtained. -/
def noPathEnv : Env :=
  { quietEnv with GetCurrentPath := fun _ => .error "no executable" }

/-- A `zmq` in which binding and sending never fail. -/
def okZmq : AppBroadcast.Zmq :=
  { BindError := fun _ _ => none, SendError := fun _ _ => none }

/-- A broadcaster on port 5555 whose channel delivers the message with topic
"t1" and payload `[0x01, 0x02]`, then a second message. -/
def twoMessages : AppBroadcast.Broadcast :=
  { BroadcastPort := "5555",
    socket := { Bound := [], Sent := [] },
    In := [{ Topic := "t1", Payload := [0x01, 0x02] }, { Topic := "t2", Payload := [0x03] }] }

/-- The orchestrator that `New(emptyConfig, logger)` returns. -/
def newState : Independent.Service :=
  { Config := emptyConfig, Controllers := [], RequiredProxies := [], Pipelines := [] }

/-- A sequence of registration calls in which the first `Pipe` fails, because
the controller it names is not added yet, and the second one succeeds. -/
def registrationCalls : List Independent.Registration :=
  [.requireProxy "proxy", .pipe "proxy" "main", .addController "main" replier,
   .pipe "proxy" "main", .addController "second" replier]

/-- Three pushes and a pop on the new queue. -/
def queueCalls : List (DataType.QueueOp Nat) :=
  [.push 7, .push 8, .pop, .push 9]

/-- A filter with one organization, two networks and nothing else. -/
def seascapeFilter : StaticConfiguration.TopicFilter :=
  { Organizations := ["seascape"], Projects := [], NetworkIds := ["1", "56"], Groups := [],
    Smartcontracts := [] }

/-- A `zmq` in which binding works and the second `SendMessage` of a socket
fails. -/
def secondSendFails : AppBroadcast.Zmq :=
  { BindError := fun _ _ => none,
    SendError := fun socket _ => if socket.Sent.length = 1 then some "no peer" else none }

/-! ## Theorems -/

/-! ### Helper lemmas -/

theorem stringsCompare_eq_zero (a b : String) : stringsCompare a b = 0 ↔ a = b := by
  unfold stringsCompare
  by_cases h : a = b
  · simp [h]
  · simp only [h, if_false, iff_false]
    split <;> decide

theorem validProxyLoop_iff (proxyUrl : String) (l : List String) :
    Independent.validProxyLoop proxyUrl l = true ↔ proxyUrl ∈ l := by
  induction l with
  | nil => simp [Independent.validProxyLoop]
  | cons url rest ih =>
    unfold Independent.validProxyLoop
    by_cases h : url = proxyUrl
    · subst h
      simp [(stringsCompare_eq_zero url url).mpr rfl]
    · have h0 : ¬ stringsCompare url proxyUrl = 0 := fun e => h ((stringsCompare_eq_zero _ _).mp e)
      simp only [h0, if_false, ih, List.mem_cons]
      constructor
      · intro hm; exact Or.inr hm
      · rintro (e | hm)
        · exact absurd e.symm h
        · exact hm

theorem KeyValue.Get_Set_self {α : Type} (k : KeyValue α) (name : String) (value : α) :
    (k.Set name value).Get name = some value := by
  induction k with
  | nil => simp [KeyValue.Set, KeyValue.Get, List.lookup]
  | cons e rest ih =>
    obtain ⟨n, v⟩ := e
    unfold KeyValue.Set
    by_cases h : n = name
    · simp [h, KeyValue.Get, List.lookup]
    · have hb : (name == n) = false := by
        simp only [beq_eq_false_iff_ne, ne_eq]
        exact fun e => h e.symm
      simp only [h, if_false, KeyValue.Get, List.lookup, hb]
      exact ih

theorem KeyValue.Get_isSome_iff {α : Type} (k : KeyValue α) (name : String) :
    (k.Get name).isSome = true ↔ name ∈ k.Keys := by
  induction k with
  | nil => simp [KeyValue.Get, KeyValue.Keys, List.lookup]
  | cons e rest ih =>
    obtain ⟨n, v⟩ := e
    by_cases h : name = n
    · subst h
      simp [KeyValue.Get, KeyValue.Keys, List.lookup]
    · have hb : (name == n) = false := by simpa using h
      simp only [KeyValue.Get, List.lookup, hb, KeyValue.Keys, List.map_cons, List.mem_cons, h,
        false_or]
      exact ih

theorem KeyValue.Exist_of_mem {α : Type} (k : KeyValue α) (name : String)
    (h : name ∈ k.Keys) : k.Exist name = .ok () := by
  have hs := (KeyValue.Get_isSome_iff k name).mpr h
  unfold KeyValue.Exist
  cases hg : k.Get name with
  | none => simp [hg] at hs
  | some v => rfl

theorem KeyValue.Exist_of_not_mem {α : Type} (k : KeyValue α) (name : String)
    (h : name ∉ k.Keys) : k.Exist name = .error ("'" ++ name ++ "' not found") := by
  have hs : ¬ (k.Get name).isSome = true := fun e => h ((KeyValue.Get_isSome_iff k name).mp e)
  unfold KeyValue.Exist
  cases hg : k.Get name with
  | none => rfl
  | some v => simp [hg] at hs

/-! ### `Pipe` -/

/-- C1: when `proxyUrl` is not an element of `RequiredProxies`, `Pipe` returns
the "not required" error for every controller name and the orchestrator
(`Pipelines`, `Controllers`, `RequiredProxies`, `Config`) is left as it was. -/
theorem Pipe_not_required (s : Independent.Service) (proxyUrl name : String)
    (h : proxyUrl ∉ s.RequiredProxies) :
    s.Pipe proxyUrl name =
      (.error ("proxy '" ++ proxyUrl ++ "' url not required. call independent.RequireProxy"),
        s) := by
  have hv : Independent.validProxyLoop proxyUrl s.RequiredProxies = false := by
    cases hb : Independent.validProxyLoop proxyUrl s.RequiredProxies with
    | false => rfl
    | true => exact absurd ((validProxyLoop_iff _ _).mp hb) h
  simp [Independent.Service.Pipe, hv]

theorem Pipe_not_required_witness :
    "other" ∉ oneControllerState.RequiredProxies ∧
    oneControllerState.Pipe "other" "main" =
      (.error "proxy 'other' url not required. call independent.RequireProxy",
        oneControllerState) :=
  ⟨by decide, Pipe_not_required oneControllerState "other" "main" (by decide)⟩

/-- C2 as stated fails: "proxy" was passed to `RequireProxy`, yet
`Pipe("proxy", "main")` returns an error and records nothing, because no
controller named "main" was added. -/
theorem Pipe_required_not_added_counterexample :
    "proxy" ∈ proxyOnlyState.RequiredProxies ∧
    (proxyOnlyState.Pipe "proxy" "main").1 =
      .error "controller instance 'main' not added. call independent.AddController: 'main' not found" ∧
    (proxyOnlyState.Pipe "proxy" "main").2.Pipelines.Get "proxy" = none := by
  decide

/-- C2 (amended): when `proxyUrl` is an element of `RequiredProxies` and
`controllerName` is the name of an added controller, `Pipe` returns no error,
afterwards `Pipelines` sends `proxyUrl` to `controllerName`, and nothing but
`Pipelines` is changed. -/
theorem Pipe_required_added (s : Independent.Service) (proxyUrl controllerName : String)
    (hp : proxyUrl ∈ s.RequiredProxies) (hc : controllerName ∈ s.Controllers.Keys) :
    (s.Pipe proxyUrl controllerName).1 = .ok ∧
    (s.Pipe proxyUrl controllerName).2.Pipelines.Get proxyUrl = some controllerName ∧
    (s.Pipe proxyUrl controllerName).2 =
      { s with Pipelines := s.Pipelines.Set proxyUrl controllerName } := by
  have hv := (validProxyLoop_iff proxyUrl s.RequiredProxies).mpr hp
  have he := KeyValue.Exist_of_mem s.Controllers controllerName hc
  simp [Independent.Service.Pipe, hv, he, KeyValue.Get_Set_self]

theorem Pipe_required_added_witness :
    (oneControllerState.Pipe "proxy" "main").1 = .ok ∧
    (oneControllerState.Pipe "proxy" "main").2.Pipelines.Get "proxy" = some "main" ∧
    (oneControllerState.Pipe "proxy" "main").2 =
      { oneControllerState with Pipelines := oneControllerState.Pipelines.Set "proxy" "main" } :=
  Pipe_required_added oneControllerState "proxy" "main" (by decide) (by decide)

/-- When `proxyUrl` is required but no controller named `name` was added,
`Pipe` returns the "not added" error and changes nothing. -/
theorem Pipe_required_not_added (s : Independent.Service) (proxyUrl name : String)
    (hp : proxyUrl ∈ s.RequiredProxies) (hc : name ∉ s.Controllers.Keys) :
    s.Pipe proxyUrl name =
      (.error ("controller instance '" ++ name ++
        "' not added. call independent.AddController: " ++ ("'" ++ name ++ "' not found")), s) := by
  have hv := (validProxyLoop_iff proxyUrl s.RequiredProxies).mpr hp
  have he := KeyValue.Exist_of_not_mem s.Controllers name hc
  simp [Independent.Service.Pipe, hv, he]

/-! ### Service identity -/

theorem String.append_ne_empty_left (a b : String) (h : a ≠ "") : a ++ b ≠ "" := by
  intro e
  have hl : (a ++ b).length = 0 := by rw [e]; rfl
  rw [String.length_append] at hl
  have ha : a.length = 0 := by omega
  apply h
  cases a with
  | mk d =>
    cases d with
    | nil => rfl
    | cons c cs => simp [String.length] at ha

/-- C6: when the configuration source of service type `N` holds `H` under
`N_HOST` and `P` under `N_PORT`, `NewExternal` in REMOTE mode returns a
service whose `Url()` is exactly `tcp://H:P`. -/
theorem NewExternal_remote_url (src : AppService.Sources) (N H P : String)
    (hH : KeyValue.Get (src.NewService N) (N ++ "_HOST") = some H)
    (hP : KeyValue.Get (src.NewService N) (N ++ "_PORT") = some P) :
    ∃ s, AppService.NewExternal src N .REMOTE = .ok s ∧
      s.Url = "tcp://" ++ H ++ ":" ++ P := by
  refine ⟨_, rfl, ?_⟩
  simp [AppService.Service.Url, AppService.AppConfig.GetString, hH, hP]

theorem NewExternal_remote_url_witness :
    ∃ s, AppService.NewExternal coreSources "CORE" .REMOTE = .ok s ∧
      s.Url = "tcp://" ++ "127.0.0.1" ++ ":" ++ "5000" :=
  NewExternal_remote_url coreSources "CORE" "127.0.0.1" "5000" (by decide) (by decide)

/-- C7: when the configuration source of service type `N` holds `P` under
`N_BROADCAST_PORT`, `NewExternal` in BROADCAST mode returns a service whose
`BroadcastUrl()` is exactly `tcp://*:P`. -/
theorem NewExternal_broadcast_url (src : AppService.Sources) (N P : String)
    (hP : KeyValue.Get (src.NewService N) (N ++ "_BROADCAST_PORT") = some P) :
    ∃ s, AppService.NewExternal src N .BROADCAST = .ok s ∧
      s.BroadcastUrl = "tcp://*:" ++ P := by
  refine ⟨_, rfl, ?_⟩
  simp [AppService.Service.BroadcastUrl, AppService.AppConfig.GetString, hP]

theorem NewExternal_broadcast_url_witness :
    ∃ s, AppService.NewExternal coreSources "CORE" .BROADCAST = .ok s ∧
      s.BroadcastUrl = "tcp://*:" ++ "5555" :=
  NewExternal_broadcast_url coreSources "CORE" "5555" (by decide)

/-- C8: for every service type `N`, `Inprocess` returns no error and the
service named `N` with `Url() = "inproc://reply_" ++ N`,
`BroadcastUrl() = "inproc://pub_" ++ N`, both non-empty, and no credentials;
the result is a function of `N` alone. -/
theorem Inprocess_service (N : AppService.ServiceType) :
    ∃ s, AppService.Inprocess N = .ok s ∧
      s = { Name := N, Credentials := none, inproc := true,
            url := "inproc://reply_" ++ N, broadcast_url := "inproc://pub_" ++ N } ∧
      s.Name = N ∧ s.Url = "inproc://reply_" ++ N ∧ s.BroadcastUrl = "inproc://pub_" ++ N ∧
      s.Url ≠ "" ∧ s.BroadcastUrl ≠ "" ∧ s.Credentials = none :=
  ⟨_, rfl, rfl, rfl, rfl, rfl,
    String.append_ne_empty_left _ _ (by decide),
    String.append_ne_empty_left _ _ (by decide), rfl⟩

/-- C9: for every service type, every configuration source and each of the
four modes of `NewExternal`, the returned service has no credentials and
exactly one non-empty endpoint: `Url()` for REMOTE and THIS, `BroadcastUrl()`
for SUBSCRIBE and BROADCAST. -/
theorem NewExternal_exactly_one_endpoint (src : AppService.Sources)
    (N : AppService.ServiceType) (limit : AppService.Limit) :
    ∃ s, AppService.NewExternal src N limit = .ok s ∧ s.Credentials = none ∧
      match limit with
      | .REMOTE => s.Url ≠ "" ∧ s.BroadcastUrl = ""
      | .THIS => s.Url ≠ "" ∧ s.BroadcastUrl = ""
      | .SUBSCRIBE => s.Url = "" ∧ s.BroadcastUrl ≠ ""
      | .BROADCAST => s.Url = "" ∧ s.BroadcastUrl ≠ "" := by
  have tcp : ∀ a : String, "tcp://" ++ a ≠ "" :=
    fun a => String.append_ne_empty_left _ a (by decide)
  have star : ∀ a : String, "tcp://*:" ++ a ≠ "" :=
    fun a => String.append_ne_empty_left _ a (by decide)
  cases limit
  · exact ⟨_, rfl, rfl,
      String.append_ne_empty_left _ _ (String.append_ne_empty_left _ _ (tcp _)), rfl⟩
  · exact ⟨_, rfl, rfl, star _, rfl⟩
  · exact ⟨_, rfl, rfl, rfl,
      String.append_ne_empty_left _ _ (String.append_ne_empty_left _ _ (tcp _))⟩
  · exact ⟨_, rfl, rfl, rfl, star _⟩

/-- C10 fails on the code: the source holds "remote-key" under
`CORE_PUBLIC_KEY`, and `NewSecure` in REMOTE mode succeeds, but the
credentials are built from the name of the key, the string
"CORE_PUBLIC_KEY", not from the stored value; in SUBSCRIBE mode they are built
from the value stored under `CORE_BROADCAST_PUBLIC_KEY`. -/
theorem NewSecure_remote_credentials_from_key_name :
    KeyValue.Get (coreSources.NewService "CORE") "CORE_PUBLIC_KEY" = some "remote-key" ∧
    AppService.NewSecure coreSources "CORE" .REMOTE =
      .ok { Name := "CORE", inproc := false, url := "tcp://127.0.0.1:5000", broadcast_url := "",
            Credentials := some (AppService.Credentials.New "CORE_PUBLIC_KEY") } ∧
    AppService.Credentials.New "CORE_PUBLIC_KEY" ≠ AppService.Credentials.New "remote-key" ∧
    AppService.NewSecure coreSources "CORE" .SUBSCRIBE =
      .ok { Name := "CORE", inproc := false, url := "", broadcast_url := "tcp://10.0.0.7:5555",
            Credentials := some (AppService.Credentials.New "broadcast-key") } := by
  refine ⟨by decide, ?_, by decide, ?_⟩
  · simp [AppService.NewSecure, AppService.NewExternal, AppService.AppConfig.Exist,
      AppService.AppConfig.GetString, coreSources, KeyValue.Get, List.lookup]
  · simp [AppService.NewSecure, AppService.NewExternal, AppService.AppConfig.Exist,
      AppService.AppConfig.GetString, coreSources, KeyValue.Get, List.lookup]

/-- In REMOTE mode with `N_PUBLIC_KEY` present, the credentials of the service
returned by `NewSecure` are `credentials.New` of the key name, whatever value
is stored under it. -/
theorem NewSecure_remote_credentials (src : AppService.Sources) (N K : String)
    (hK : KeyValue.Get (src.NewService N) (N ++ "_PUBLIC_KEY") = some K) :
    ∃ s, AppService.NewSecure src N .REMOTE = .ok s ∧
      s.Credentials = some (AppService.Credentials.New (N ++ "_PUBLIC_KEY")) := by
  simp [AppService.NewSecure, AppService.NewExternal, AppService.AppConfig.Exist, hK]

/-! ### `Prepare` -/

/-- C3: when no controller is registered, `Prepare` returns the "no
controllers" error for every expected service type, every configuration,
`RequiredProxies` and `Pipelines`, and in every world; the orchestrator is
returned as it was: the configuration is unchanged and no call of a later
stage (context, configuration, proxy, pipeline, extension preparation) is
recorded. -/
theorem Prepare_no_controllers (env : Env) (s : Independent.Service) (as : String)
    (h : s.Controllers.length = 0) :
    s.Prepare env as = (.error "no Controllers. call independent.AddController", s) ∧
    (s.Prepare env as).2.Config = s.Config ∧
    (s.Prepare env as).2.Config.Context.Calls = s.Config.Context.Calls := by
  have hp : s.Prepare env as = (.error "no Controllers. call independent.AddController", s) := by
    unfold Independent.Service.Prepare
    rw [if_pos h]
  rw [hp]
  exact ⟨rfl, rfl, rfl⟩

theorem Prepare_no_controllers_witness :
    noControllerState.Prepare quietEnv "INDEPENDENT" =
      (.error "no Controllers. call independent.AddController", noControllerState) ∧
    (noControllerState.Prepare quietEnv "INDEPENDENT").2.Config = noControllerState.Config ∧
    (noControllerState.Prepare quietEnv "INDEPENDENT").2.Config.Context.Calls =
      noControllerState.Config.Context.Calls :=
  Prepare_no_controllers quietEnv noControllerState "INDEPENDENT" (by decide)

/-- With a controller registered, `Prepare` goes past the guard: the call of
`dev.Prepare` is recorded whatever happens later. -/
theorem Prepare_with_controller_calls_devPrepare :
    (oneControllerState.Prepare quietEnv "INDEPENDENT").2.Config.Context.Calls.head? =
      some Call.devPrepare := by
  decide

/-! ### The pipeline lint -/

theorem setControllerList_eq_set (c d : Configuration.Controller)
    (l : List Configuration.Controller)
    (h : l.find? (fun x => x.Name = c.Name) = some d) :
    ∃ i, l[i]? = some d ∧ Configuration.setControllerList c l = l.set i c := by
  induction l with
  | nil => simp at h
  | cons x rest ih =>
    unfold Configuration.setControllerList
    by_cases hx : x.Name = c.Name
    · simp only [List.find?, hx, decide_True, Option.some.injEq] at h
      subst h
      exact ⟨0, by simp, by simp [hx]⟩
    · simp only [List.find?, hx, decide_False] at h
      obtain ⟨i, hi, hs⟩ := ih h
      exact ⟨i + 1, by simpa using hi, by simp [hx, hs]⟩

theorem find_setControllerList (c : Configuration.Controller)
    (l : List Configuration.Controller) :
    (Configuration.setControllerList c l).find? (fun x => x.Name = c.Name) = some c := by
  induction l with
  | nil => simp [Configuration.setControllerList]
  | cons x rest ih =>
    unfold Configuration.setControllerList
    by_cases hx : x.Name = c.Name
    · simp [hx]
    · simp only [hx, if_false, List.find?, decide_False]
      exact ih

theorem GetController_ok_iff (s : Configuration.Service) (name : String)
    (c : Configuration.Controller) :
    s.GetController name = .ok c ↔ s.Controllers.find? (fun x => x.Name = name) = some c := by
  unfold Configuration.Service.GetController
  cases hf : s.Controllers.find? (fun x => x.Name = name) with
  | none => simp
  | some d => simp

theorem GetController_name (s : Configuration.Service) (name : String)
    (c : Configuration.Controller) (h : s.GetController name = .ok c) : c.Name = name := by
  have hf := (GetController_ok_iff s name c).mp h
  simpa using List.find?_some hf

/-- The value of the lint when both controllers are found, both have a first
instance and the two ports differ. -/
theorem lint_mismatch_eq (env : Env) (config : Config) (proxyUrl controllerName : String)
    (proxyConfig : Configuration.Service)
    (destinationConfig controllerConfig : Configuration.Controller)
    (dInst inst : Configuration.ControllerInstance)
    (hStored : config.Context.Files.Get proxyUrl = some proxyConfig)
    (hDest : proxyConfig.GetController Configuration.DestinationName = .ok destinationConfig)
    (hLocal : config.Service.GetController controllerName = .ok controllerConfig)
    (hQ : destinationConfig.Instances[0]? = some dInst)
    (hP : controllerConfig.Instances[0]? = some inst)
    (hne : dInst.Port ≠ inst.Port) :
    Independent.preparePipelineConfiguration env config proxyUrl controllerName =
      match env.WriteError (config.Context.record (.devReadServiceConfiguration proxyUrl))
          proxyUrl with
      | some err =>
        (.error ("dev.WriteServiceConfiguration for '" ++ proxyUrl ++ "': " ++ err),
          { config with
            Context := (config.Context.record (.devReadServiceConfiguration proxyUrl)).record
              (.devWriteServiceConfiguration proxyUrl
                (proxyConfig.SetController
                  { destinationConfig with
                    Instances := destinationConfig.Instances.set 0
                      { dInst with Port := inst.Port } })) })
      | none =>
        (.ok,
          { config with
            Context :=
              { Files := config.Context.Files.Set proxyUrl
                  (proxyConfig.SetController
                    { destinationConfig with
                      Instances := destinationConfig.Instances.set 0
                        { dInst with Port := inst.Port } }),
                Calls := config.Context.Calls ++
                  [.devReadServiceConfiguration proxyUrl,
                   .devWriteServiceConfiguration proxyUrl
                    (proxyConfig.SetController
                      { destinationConfig with
                        Instances := destinationConfig.Instances.set 0
                          { dInst with Port := inst.Port } })] } }) := by
  unfold Independent.preparePipelineConfiguration Dev.ReadServiceConfiguration
    Dev.WriteServiceConfiguration
  simp only [hStored, hDest, hLocal, hQ, hP, hne, ne_eq, not_false_eq_true, if_true]
  cases hw : env.WriteError (config.Context.record (.devReadServiceConfiguration proxyUrl))
      proxyUrl with
  | some err => rfl
  | none => simp [Context.record]

/-- The value of the lint when both controllers are found, both have a first
instance and the two ports agree: the stored configuration is read and
nothing is written. -/
theorem lint_agree_eq (env : Env) (config : Config) (proxyUrl controllerName : String)
    (proxyConfig : Configuration.Service)
    (destinationConfig controllerConfig : Configuration.Controller)
    (dInst inst : Configuration.ControllerInstance)
    (hStored : config.Context.Files.Get proxyUrl = some proxyConfig)
    (hDest : proxyConfig.GetController Configuration.DestinationName = .ok destinationConfig)
    (hLocal : config.Service.GetController controllerName = .ok controllerConfig)
    (hQ : destinationConfig.Instances[0]? = some dInst)
    (hP : controllerConfig.Instances[0]? = some inst)
    (heq : dInst.Port = inst.Port) :
    Independent.preparePipelineConfiguration env config proxyUrl controllerName =
      (.ok, { config with
              Context := config.Context.record (.devReadServiceConfiguration proxyUrl) }) := by
  unfold Independent.preparePipelineConfiguration Dev.ReadServiceConfiguration
  simp [hStored, hDest, hLocal, hQ, hP, heq]

/-- When the lint returns no error, the stored configuration of the
dependency was read, both controllers were found and both have a first
instance. -/
theorem lint_ok_inv (env : Env) (config config1 : Config) (proxyUrl controllerName : String)
    (h : Independent.preparePipelineConfiguration env config proxyUrl controllerName =
      (.ok, config1)) :
    ∃ proxyConfig destinationConfig controllerConfig dInst inst,
      config.Context.Files.Get proxyUrl = some proxyConfig ∧
      proxyConfig.GetController Configuration.DestinationName = .ok destinationConfig ∧
      config.Service.GetController controllerName = .ok controllerConfig ∧
      destinationConfig.Instances[0]? = some dInst ∧
      controllerConfig.Instances[0]? = some inst := by
  unfold Independent.preparePipelineConfiguration Dev.ReadServiceConfiguration at h
  cases h1 : config.Context.Files.Get proxyUrl with
  | none => simp [h1] at h
  | some proxyConfig =>
    cases h2 : proxyConfig.GetController Configuration.DestinationName with
    | error e => simp [h1, h2] at h
    | ok destinationConfig =>
      cases h3 : config.Service.GetController controllerName with
      | error e => simp [h1, h2, h3] at h
      | ok controllerConfig =>
        cases h4 : destinationConfig.Instances[0]? with
        | none => simp [h1, h2, h3, h4] at h
        | some dInst =>
          cases h5 : controllerConfig.Instances[0]? with
          | none => simp [h1, h2, h3, h4, h5] at h
          | some inst => exact ⟨proxyConfig, destinationConfig, controllerConfig, dInst, inst,
              rfl, h2, rfl, h4, h5⟩

theorem getElem?_zero_set_zero {α : Type} (l : List α) (a b : α) (h : l[0]? = some b) :
    (l.set 0 a)[0]? = some a := by
  cases l with
  | nil => simp at h
  | cons x rest => simp

/-- C4: when the local controller's first instance has port `P` and the
first instance of the destination controller in the dependency's stored
configuration has a port `Q ≠ P`, the lint calls
`dev.WriteServiceConfiguration` once, with the stored configuration in which
only the destination controller (entry `i` of the controllers) is changed,
only in its first instance, only in the port, which is now `P`; the local
service configuration is unchanged; and unless the write itself fails the
lint returns no error and the written configuration is the stored one. -/
theorem lint_rewrites_on_mismatch (env : Env) (config : Config)
    (proxyUrl controllerName : String) (proxyConfig : Configuration.Service)
    (destinationConfig controllerConfig : Configuration.Controller)
    (dInst inst : Configuration.ControllerInstance)
    (hStored : config.Context.Files.Get proxyUrl = some proxyConfig)
    (hDest : proxyConfig.GetController Configuration.DestinationName = .ok destinationConfig)
    (hLocal : config.Service.GetController controllerName = .ok controllerConfig)
    (hQ : destinationConfig.Instances[0]? = some dInst)
    (hP : controllerConfig.Instances[0]? = some inst)
    (hne : dInst.Port ≠ inst.Port) :
    ∃ i written,
      proxyConfig.Controllers[i]? = some destinationConfig ∧
      written = { proxyConfig with
                  Controllers := proxyConfig.Controllers.set i
                    { destinationConfig with
                      Instances := destinationConfig.Instances.set 0
                        { dInst with Port := inst.Port } } } ∧
      (∃ d first, written.GetController Configuration.DestinationName = .ok d ∧
        d.Instances[0]? = some first ∧ first.Port = inst.Port) ∧
      (Independent.preparePipelineConfiguration env config proxyUrl controllerName).2.Service =
        config.Service ∧
      (Independent.preparePipelineConfiguration env config proxyUrl controllerName).2.Name =
        config.Name ∧
      (Independent.preparePipelineConfiguration env config proxyUrl
          controllerName).2.Context.Calls =
        config.Context.Calls ++ [.devReadServiceConfiguration proxyUrl,
          .devWriteServiceConfiguration proxyUrl written] ∧
      match env.WriteError (config.Context.record (.devReadServiceConfiguration proxyUrl))
          proxyUrl with
      | none =>
        (Independent.preparePipelineConfiguration env config proxyUrl controllerName).1 = .ok ∧
        (Independent.preparePipelineConfiguration env config proxyUrl
            controllerName).2.Context.Files = config.Context.Files.Set proxyUrl written ∧
        (Independent.preparePipelineConfiguration env config proxyUrl
            controllerName).2.Context.Files.Get proxyUrl = some written
      | some err =>
        (Independent.preparePipelineConfiguration env config proxyUrl controllerName).1 =
          .error ("dev.WriteServiceConfiguration for '" ++ proxyUrl ++ "': " ++ err) ∧
        (Independent.preparePipelineConfiguration env config proxyUrl
            controllerName).2.Context.Files = config.Context.Files := by
  have hfind := (GetController_ok_iff _ _ _).mp hDest
  have hname := GetController_name _ _ _ hDest
  obtain ⟨i, hi, hset⟩ := setControllerList_eq_set
    { destinationConfig with
      Instances := destinationConfig.Instances.set 0 { dInst with Port := inst.Port } }
    destinationConfig proxyConfig.Controllers (by simpa [hname] using hfind)
  have hw : proxyConfig.SetController
      { destinationConfig with
        Instances := destinationConfig.Instances.set 0 { dInst with Port := inst.Port } } =
      { proxyConfig with
        Controllers := proxyConfig.Controllers.set i
          { destinationConfig with
            Instances := destinationConfig.Instances.set 0 { dInst with Port := inst.Port } } } := by
    simp [Configuration.Service.SetController, hset]
  have hnew : (proxyConfig.SetController
      { destinationConfig with
        Instances := destinationConfig.Instances.set 0 { dInst with Port := inst.Port } }).GetController
        Configuration.DestinationName =
      .ok { destinationConfig with
            Instances := destinationConfig.Instances.set 0 { dInst with Port := inst.Port } } := by
    rw [GetController_ok_iff]
    have := find_setControllerList
      { destinationConfig with
        Instances := destinationConfig.Instances.set 0 { dInst with Port := inst.Port } }
      proxyConfig.Controllers
    simpa [Configuration.Service.SetController, hname] using this
  have hval := lint_mismatch_eq env config proxyUrl controllerName proxyConfig destinationConfig
    controllerConfig dInst inst hStored hDest hLocal hQ hP hne
  refine ⟨i, _, hi, rfl, ?_, ?_⟩
  · rw [← hw]
    exact ⟨_, _, hnew, getElem?_zero_set_zero _ _ _ hQ, rfl⟩
  · rw [hval, ← hw]
    cases hwe : env.WriteError (config.Context.record (.devReadServiceConfiguration proxyUrl))
        proxyUrl with
    | some err => simp [Context.record]
    | none => simp [KeyValue.Get_Set_self]

theorem lint_rewrites_on_mismatch_witness :
    ∃ i written,
      storedProxy.Controllers[i]? = some storedDestination ∧
      written = { storedProxy with
                  Controllers := storedProxy.Controllers.set i
                    { storedDestination with
                      Instances := storedDestination.Instances.set 0
                        { Name := "destination", Instance := "destination1", Port := 4001 } } } ∧
      (∃ d first, written.GetController Configuration.DestinationName = .ok d ∧
        d.Instances[0]? = some first ∧ first.Port = 4001) ∧
      (Independent.preparePipelineConfiguration quietEnv lintConfig "proxy" "main").2.Service =
        lintConfig.Service ∧
      (Independent.preparePipelineConfiguration quietEnv lintConfig "proxy" "main").2.Name =
        lintConfig.Name ∧
      (Independent.preparePipelineConfiguration quietEnv lintConfig "proxy"
          "main").2.Context.Calls =
        lintConfig.Context.Calls ++ [.devReadServiceConfiguration "proxy",
          .devWriteServiceConfiguration "proxy" written] ∧
      (Independent.preparePipelineConfiguration quietEnv lintConfig "proxy" "main").1 = .ok ∧
      (Independent.preparePipelineConfiguration quietEnv lintConfig "proxy"
          "main").2.Context.Files = lintConfig.Context.Files.Set "proxy" written ∧
      (Independent.preparePipelineConfiguration quietEnv lintConfig "proxy"
          "main").2.Context.Files.Get "proxy" = some written :=
  lint_rewrites_on_mismatch quietEnv lintConfig "proxy" "main" storedProxy storedDestination
    mainController { Name := "destination", Instance := "destination1", Port := 5001 }
    { Name := "main", Instance := "main1", Port := 4001 }
    (by decide) ((GetController_ok_iff _ _ _).mpr (by decide))
    ((GetController_ok_iff _ _ _).mpr (by decide)) (by decide) (by decide) (by decide)

/-- C5: when the lint returns no error, running it again on the resulting
state returns no error, records only the read of the stored configuration (no
write) and leaves the stored configurations and the local configuration as
the first run left them; and when the two first-instance ports agree before
the first run, the first run itself records only the read. -/
theorem lint_idempotent (env : Env) (config config1 : Config)
    (proxyUrl controllerName : String)
    (h : Independent.preparePipelineConfiguration env config proxyUrl controllerName =
      (.ok, config1)) :
    Independent.preparePipelineConfiguration env config1 proxyUrl controllerName =
      (.ok, { config1 with
              Context := config1.Context.record (.devReadServiceConfiguration proxyUrl) }) ∧
    (Independent.preparePipelineConfiguration env config1 proxyUrl
        controllerName).2.Context.Files = config1.Context.Files ∧
    (Independent.preparePipelineConfiguration env config1 proxyUrl
        controllerName).2.Context.Calls =
      config1.Context.Calls ++ [.devReadServiceConfiguration proxyUrl] ∧
    (Independent.preparePipelineConfiguration env config1 proxyUrl controllerName).2.Service =
      config1.Service ∧
    (∀ proxyConfig destinationConfig controllerConfig dInst inst,
      config.Context.Files.Get proxyUrl = some proxyConfig →
      proxyConfig.GetController Configuration.DestinationName = .ok destinationConfig →
      config.Service.GetController controllerName = .ok controllerConfig →
      destinationConfig.Instances[0]? = some dInst →
      controllerConfig.Instances[0]? = some inst →
      dInst.Port = inst.Port →
      config1 = { config with
                  Context := config.Context.record (.devReadServiceConfiguration proxyUrl) }) := by
  obtain ⟨proxyConfig, destinationConfig, controllerConfig, dInst, inst, hStored, hDest, hLocal,
    hQ, hP⟩ := lint_ok_inv env config config1 proxyUrl controllerName h
  have hsecond : Independent.preparePipelineConfiguration env config1 proxyUrl controllerName =
      (.ok, { config1 with
              Context := config1.Context.record (.devReadServiceConfiguration proxyUrl) }) := by
    by_cases hports : dInst.Port = inst.Port
    · have h1 := lint_agree_eq env config proxyUrl controllerName proxyConfig destinationConfig
        controllerConfig dInst inst hStored hDest hLocal hQ hP hports
      rw [h1] at h
      have hc : config1 = { config with
          Context := config.Context.record (.devReadServiceConfiguration proxyUrl) } :=
        (Prod.mk.inj h).2.symm
      subst hc
      exact lint_agree_eq env _ proxyUrl controllerName proxyConfig destinationConfig
        controllerConfig dInst inst hStored hDest hLocal hQ hP hports
    · have h1 := lint_mismatch_eq env config proxyUrl controllerName proxyConfig
        destinationConfig controllerConfig dInst inst hStored hDest hLocal hQ hP hports
      rw [h1] at h
      cases hwe : env.WriteError (config.Context.record (.devReadServiceConfiguration proxyUrl))
          proxyUrl with
      | some err => simp [hwe] at h
      | none =>
        simp only [hwe] at h
        have hc := (Prod.mk.inj h).2.symm
        subst hc
        have hname := GetController_name _ _ _ hDest
        refine lint_agree_eq env _ proxyUrl controllerName
          (proxyConfig.SetController
            { destinationConfig with
              Instances := destinationConfig.Instances.set 0 { dInst with Port := inst.Port } })
          { destinationConfig with
            Instances := destinationConfig.Instances.set 0 { dInst with Port := inst.Port } }
          controllerConfig { dInst with Port := inst.Port } inst ?_ ?_ hLocal ?_ hP rfl
        · exact KeyValue.Get_Set_self _ _ _
        · rw [GetController_ok_iff]
          have := find_setControllerList
            { destinationConfig with
              Instances := destinationConfig.Instances.set 0 { dInst with Port := inst.Port } }
            proxyConfig.Controllers
          simpa [Configuration.Service.SetController, hname] using this
        · exact getElem?_zero_set_zero _ _ _ hQ
  refine ⟨hsecond, ?_, ?_, ?_, ?_⟩
  · rw [hsecond]; rfl
  · rw [hsecond]; rfl
  · rw [hsecond]
  · intro pc dc cc di ci h1 h2 h3 h4 h5 h6
    have hv := lint_agree_eq env config proxyUrl controllerName pc dc cc di ci h1 h2 h3 h4 h5 h6
    rw [hv] at h
    exact (Prod.mk.inj h).2.symm

theorem lint_idempotent_witness :
    Independent.preparePipelineConfiguration quietEnv lintedConfig "proxy" "main" =
      (.ok, { lintedConfig with
              Context := lintedConfig.Context.record (.devReadServiceConfiguration "proxy") }) ∧
    (Independent.preparePipelineConfiguration quietEnv lintedConfig "proxy"
        "main").2.Context.Files = lintedConfig.Context.Files ∧
    (Independent.preparePipelineConfiguration quietEnv lintedConfig "proxy"
        "main").2.Context.Calls =
      lintedConfig.Context.Calls ++ [.devReadServiceConfiguration "proxy"] ∧
    (Independent.preparePipelineConfiguration quietEnv lintedConfig "proxy" "main").2.Service =
      lintedConfig.Service :=
  have h := lint_idempotent quietEnv lintConfig lintedConfig "proxy" "main" (by decide)
  ⟨h.1, h.2.1, h.2.2.1, h.2.2.2.1⟩

/-- C11: for every service type `N`, `NewSecure` in REMOTE mode returns an
error (and so no service) exactly when the configuration source has no key
`N_PUBLIC_KEY`, and in SUBSCRIBE mode exactly when it has no key
`N_BROADCAST_PUBLIC_KEY`. -/
theorem NewSecure_error_iff_key_absent (src : AppService.Sources)
    (N : AppService.ServiceType) :
    ((∃ err, AppService.NewSecure src N .REMOTE = .error err) ↔
      KeyValue.Get (src.NewService N) (N ++ "_PUBLIC_KEY") = none) ∧
    ((∃ err, AppService.NewSecure src N .SUBSCRIBE = .error err) ↔
      KeyValue.Get (src.NewService N) (N ++ "_BROADCAST_PUBLIC_KEY") = none) := by
  constructor
  · cases hk : KeyValue.Get (src.NewService N) (N ++ "_PUBLIC_KEY") with
    | none =>
      simp [AppService.NewSecure, AppService.NewExternal, AppService.AppConfig.Exist, hk]
    | some K =>
      simp [AppService.NewSecure, AppService.NewExternal, AppService.AppConfig.Exist, hk]
  · cases hk : KeyValue.Get (src.NewService N) (N ++ "_BROADCAST_PUBLIC_KEY") with
    | none =>
      simp [AppService.NewSecure, AppService.NewExternal, AppService.AppConfig.Exist, hk]
    | some K =>
      simp [AppService.NewSecure, AppService.NewExternal, AppService.AppConfig.Exist, hk]

/-! ### Preparation of the configuration -/

/-- C12 fails on the code: with the controller "main" registered and a service
configuration of the expected type that has no controller entry,
`prepareControllerConfigurations` (alone, and inside `prepareConfiguration`)
returns no error and allocates a port, yet afterwards `Config.Service` has no
controller entry at all; `Prepare` then fails in its last loop because the
entry of "main" is missing. -/
theorem prepareControllerConfigurations_loses_entries :
    (registeredState.prepareControllerConfigurations quietEnv).1 = .ok ∧
    (registeredState.prepareControllerConfigurations quietEnv).2.Config.Service.Controllers = [] ∧
    (registeredState.prepareControllerConfigurations quietEnv).2.Config.Context.Calls =
      [.getFreePort] ∧
    (registeredState.prepareConfiguration quietEnv "INDEPENDENT").1 = .ok ∧
    (registeredState.prepareConfiguration quietEnv "INDEPENDENT").2.Config.Service.Controllers =
      [] ∧
    (registeredState.Prepare quietEnv "INDEPENDENT").1 =
      .error ("c 'main' registered in the service, no config found: " ++
        "'main' controller was not found in '/bin/app' service's configuration") := by
  decide

/-- C16: when the configuration has an entry for the controller, of the
declared type, whose instance list is not empty and whose first instance has
port 0, `PrepareControllerConfiguration` returns an error and the orchestrator
is left as it was: the entry, with port 0, is still the stored one and no call
(so no port allocation) is recorded. -/
theorem PrepareControllerConfiguration_rejects_zero_port (env : Env)
    (s : Independent.Service) (name as : String) (c : Configuration.Controller)
    (first : Configuration.ControllerInstance)
    (hFound : s.Config.Service.GetController name = .ok c)
    (hType : c.Type_ = as)
    (hFirst : c.Instances[0]? = some first)
    (hPort : first.Port = 0) :
    s.PrepareControllerConfiguration env name as =
      (.error ("failed preparing '" ++ c.Name ++
        "' controller instance configuration: " ++ "the port should not be 0 in the source"), s) ∧
    (s.PrepareControllerConfiguration env name as).2.Config.Service.GetController name = .ok c ∧
    (s.PrepareControllerConfiguration env name as).2.Config.Context.Calls =
      s.Config.Context.Calls := by
  have hlen : ¬ c.Instances.length = 0 := by
    intro h0
    have : c.Instances = [] := List.length_eq_zero.mp h0
    rw [this] at hFirst
    simp at hFirst
  have hval : s.PrepareControllerConfiguration env name as =
      (.error ("failed preparing '" ++ c.Name ++
        "' controller instance configuration: " ++ "the port should not be 0 in the source"), s) := by
    unfold Independent.Service.PrepareControllerConfiguration
      Independent.Service.prepareInstanceConfiguration
    simp [hFound, hType, hlen, hFirst, hPort]
  rw [hval]
  exact ⟨rfl, hFound, rfl⟩

theorem PrepareControllerConfiguration_rejects_zero_port_witness :
    zeroPortState.PrepareControllerConfiguration quietEnv "main" "REPLIER" =
      (.error ("failed preparing '" ++ "main" ++
        "' controller instance configuration: " ++ "the port should not be 0 in the source"),
        zeroPortState) ∧
    (zeroPortState.PrepareControllerConfiguration quietEnv "main"
        "REPLIER").2.Config.Service.GetController "main" =
      .ok { Type_ := "REPLIER", Name := "main",
            Instances := [{ Name := "main", Instance := "main1", Port := 0 }] } ∧
    (zeroPortState.PrepareControllerConfiguration quietEnv "main"
        "REPLIER").2.Config.Context.Calls = zeroPortState.Config.Context.Calls :=
  PrepareControllerConfiguration_rejects_zero_port quietEnv zeroPortState "main" "REPLIER"
    { Type_ := "REPLIER", Name := "main",
      Instances := [{ Name := "main", Instance := "main1", Port := 0 }] }
    { Name := "main", Instance := "main1", Port := 0 }
    ((GetController_ok_iff _ _ _).mpr (by decide)) (by decide) (by decide) (by decide)

/-- C15 as stated fails when the expected type is the empty string: the type
of the zero service configuration equals the expected type "", yet
`prepareServiceConfiguration` takes the branch of the empty type: it fails
when the path of the executable cannot be obtained, and otherwise replaces
`Config.Service`. -/
theorem prepareServiceConfiguration_empty_type_counterexample :
    proxyOnlyState.Config.Service.Type_ = "" ∧
    (proxyOnlyState.prepareServiceConfiguration noPathEnv "").1 =
      .error "failed to get current executable path: no executable" ∧
    (proxyOnlyState.prepareServiceConfiguration quietEnv "").1 = .ok ∧
    (proxyOnlyState.prepareServiceConfiguration quietEnv "").2.Config.Service ≠
      proxyOnlyState.Config.Service := by
  decide

theorem String.length_eq_zero_iff (a : String) : a.length = 0 ↔ a = "" := by
  cases a with
  | mk d =>
    cases d with
    | nil => simp [String.length]
    | cons c cs =>
      simp only [String.length, List.length_cons, Nat.add_one_ne_zero, false_iff]
      intro h
      have := congrArg String.data h
      simp at this

/-- C15 (amended): for every expected type `T`, when the type of
`Config.Service` is not empty and differs from `T`,
`prepareServiceConfiguration` returns the type-mismatch error and changes
nothing; when it is not empty and equals `T` it returns no error and changes
nothing; when it is empty and the path of the executable is obtained, it
returns no error and `Config.Service` becomes the service of type `T` whose
url is that path and whose instance is `Config.Name ++ " 1"`. -/
theorem prepareServiceConfiguration_cases (env : Env) (s : Independent.Service) (T : String) :
    (s.Config.Service.Type_ ≠ "" → s.Config.Service.Type_ ≠ T →
      s.prepareServiceConfiguration env T =
        (.error ("service type is overwritten. expected '" ++ T ++ "', not '" ++
          s.Config.Service.Type_ ++ "'"), s)) ∧
    (s.Config.Service.Type_ ≠ "" → s.Config.Service.Type_ = T →
      s.prepareServiceConfiguration env T = (.ok, s)) ∧
    (∀ exePath, s.Config.Service.Type_ = "" →
      env.GetCurrentPath s.Config.Context = .ok exePath →
      (s.prepareServiceConfiguration env T).1 = .ok ∧
      (s.prepareServiceConfiguration env T).2.Config.Service =
        { Type_ := T, Url := exePath, Instance := s.Config.Name ++ " 1",
          Controllers := [], Proxies := [], Extensions := [] }) := by
  refine ⟨?_, ?_, ?_⟩
  · intro hne hT
    have hl : ¬ s.Config.Service.Type_.length = 0 :=
      fun h => hne ((String.length_eq_zero_iff _).mp h)
    unfold Independent.Service.prepareServiceConfiguration
    simp [hl, hT]
  · intro hne hT
    have hl : ¬ s.Config.Service.Type_.length = 0 :=
      fun h => hne ((String.length_eq_zero_iff _).mp h)
    unfold Independent.Service.prepareServiceConfiguration
    simp only [hl, ↓reduceIte]
    simp [hT]
  · intro exePath hE hP
    have hl : s.Config.Service.Type_.length = 0 := (String.length_eq_zero_iff _).mpr hE
    unfold Independent.Service.prepareServiceConfiguration
    simp [hl, hP]

theorem prepareServiceConfiguration_cases_witness :
    zeroPortState.prepareServiceConfiguration quietEnv "PROXY" =
      (.error ("service type is overwritten. expected '" ++ "PROXY" ++ "', not '" ++
        "INDEPENDENT" ++ "'"), zeroPortState) ∧
    zeroPortState.prepareServiceConfiguration quietEnv "INDEPENDENT" = (.ok, zeroPortState) ∧
    (proxyOnlyState.prepareServiceConfiguration quietEnv "INDEPENDENT").1 = .ok ∧
    (proxyOnlyState.prepareServiceConfiguration quietEnv "INDEPENDENT").2.Config.Service =
      { Type_ := "INDEPENDENT", Url := "/bin/app", Instance := "app" ++ " 1",
        Controllers := [], Proxies := [], Extensions := [] } :=
  ⟨(prepareServiceConfiguration_cases quietEnv zeroPortState "PROXY").1 (by decide) (by decide),
   (prepareServiceConfiguration_cases quietEnv zeroPortState "INDEPENDENT").2.1
    (by decide) (by decide),
   (prepareServiceConfiguration_cases quietEnv proxyOnlyState "INDEPENDENT").2.2 "/bin/app"
    (by decide) rfl⟩

/-! ### Proxies and extensions -/

theorem mem_setProxyList (p : Configuration.Proxy) (l : List Configuration.Proxy) :
    p ∈ Configuration.setProxyList p l := by
  induction l with
  | nil => simp [Configuration.setProxyList]
  | cons q rest ih =>
    unfold Configuration.setProxyList
    by_cases h : q.Url = p.Url
    · simp [h]
    · simp [h, ih]

/-- The value of `prepareProxyConfiguration` once the dependency was fetched,
its stored configuration read and converted. -/
theorem prepareProxyConfiguration_eq (env : Env) (config : Config) (requiredProxy : String)
    (files : KeyValue Configuration.Service) (service : Configuration.Service)
    (converted : Configuration.Proxy)
    (hPrep : env.PrepareConfiguration config.Context requiredProxy = .ok files)
    (hRead : KeyValue.Get files requiredProxy = some service)
    (hConv : env.ServiceToProxy service = .ok converted) :
    Independent.prepareProxyConfiguration env requiredProxy config =
      match config.Service.GetProxy requiredProxy with
      | none =>
        (.ok, { config with
                Service := config.Service.SetProxy converted,
                Context := { Files := files,
                             Calls := config.Context.Calls ++
                               [.devPrepareConfiguration requiredProxy,
                                .devReadServiceConfiguration requiredProxy] } })
      | some proxyConfiguration =>
        (if proxyConfiguration.Url ≠ converted.Url then
            Outcome.error ("the proxy urls are not matching. in your configuration: " ++
              proxyConfiguration.Url ++ ", in the deps: " ++ converted.Url)
          else if proxyConfiguration.Port ≠ converted.Port then
            Outcome.error ("the proxy ports are not matching. in your configuration: " ++
              toString proxyConfiguration.Port ++ ", in the deps: " ++ toString converted.Port)
          else Outcome.ok,
          { config with
            Context := { Files := files,
                         Calls := config.Context.Calls ++
                           [.devPrepareConfiguration requiredProxy,
                            .devReadServiceConfiguration requiredProxy] } }) := by
  unfold Independent.prepareProxyConfiguration Independent.devPrepareConfiguration
    Dev.ReadServiceConfiguration
  simp only [hPrep, Context.record, hRead, hConv]
  cases hg : config.Service.GetProxy requiredProxy with
  | none => simp
  | some proxyConfiguration =>
    by_cases hu : proxyConfiguration.Url = converted.Url
    · by_cases hp : proxyConfiguration.Port = converted.Port
      · simp [hu, hp, (stringsCompare_eq_zero _ _).mpr rfl]
      · simp [hu, hp, (stringsCompare_eq_zero _ _).mpr rfl]
    · have h0 : ¬ stringsCompare proxyConfiguration.Url converted.Url = 0 :=
        fun e => hu ((stringsCompare_eq_zero _ _).mp e)
      simp [hu, h0]

/-- C14: once the dependency of a required proxy url was fetched and its
stored configuration read and converted, `prepareProxyConfiguration` stores
the converted descriptor when the local configuration has no record of that
url; when it has a record, it returns no error exactly when the url and the
port of the record equal those of the converted descriptor, returns an error
otherwise, and leaves the local service configuration as it was in both
cases. -/
theorem prepareProxyConfiguration_stores_or_verifies (env : Env) (config : Config)
    (requiredProxy : String) (files : KeyValue Configuration.Service)
    (service : Configuration.Service) (converted : Configuration.Proxy)
    (hPrep : env.PrepareConfiguration config.Context requiredProxy = .ok files)
    (hRead : KeyValue.Get files requiredProxy = some service)
    (hConv : env.ServiceToProxy service = .ok converted) :
    match config.Service.GetProxy requiredProxy with
    | none =>
      (Independent.prepareProxyConfiguration env requiredProxy config).1 = .ok ∧
      (Independent.prepareProxyConfiguration env requiredProxy config).2.Service =
        config.Service.SetProxy converted ∧
      converted ∈ (Independent.prepareProxyConfiguration env requiredProxy config).2.Service.Proxies
    | some record =>
      ((Independent.prepareProxyConfiguration env requiredProxy config).1 = .ok ↔
        record.Url = converted.Url ∧ record.Port = converted.Port) ∧
      ((Independent.prepareProxyConfiguration env requiredProxy config).1 = .ok ∨
        ∃ msg, (Independent.prepareProxyConfiguration env requiredProxy config).1 = .error msg) ∧
      (Independent.prepareProxyConfiguration env requiredProxy config).2.Service =
        config.Service := by
  rw [prepareProxyConfiguration_eq env config requiredProxy files service converted hPrep hRead
    hConv]
  cases hg : config.Service.GetProxy requiredProxy with
  | none =>
    refine ⟨rfl, rfl, ?_⟩
    exact mem_setProxyList converted config.Service.Proxies
  | some record =>
    by_cases hu : record.Url = converted.Url
    · by_cases hp : record.Port = converted.Port
      · simp [hu, hp]
      · simp [hu, hp]
    · simp [hu]

theorem prepareProxyConfiguration_stores_or_verifies_witness :
    ((Independent.prepareProxyConfiguration quietEnv "ext" recordedConfig).1 = .ok ↔
      "ext" = "ext" ∧ 81 = 80) ∧
    ((Independent.prepareProxyConfiguration quietEnv "ext" recordedConfig).1 = .ok ∨
      ∃ msg, (Independent.prepareProxyConfiguration quietEnv "ext" recordedConfig).1 =
        .error msg) ∧
    (Independent.prepareProxyConfiguration quietEnv "ext" recordedConfig).2.Service =
      recordedConfig.Service :=
  prepareProxyConfiguration_stores_or_verifies quietEnv recordedConfig "ext"
    [("ext", storedExtension)] storedExtension { Url := "ext", Port := 80 } rfl (by decide) rfl

/-- Whatever the two ports are, `prepareExtensionConfiguration` returns no
error when the local record and the converted descriptor have the same url. -/
theorem prepareExtensionConfiguration_ignores_port (env : Env) (config : Config)
    (requiredExtension : String) (files : KeyValue Configuration.Service)
    (service : Configuration.Service) (converted record : Configuration.Extension)
    (hPrep : env.PrepareConfiguration config.Context requiredExtension = .ok files)
    (hRead : KeyValue.Get files requiredExtension = some service)
    (hConv : env.ServiceToExtension service = .ok converted)
    (hRecord : config.Service.GetExtension requiredExtension = some record)
    (hUrl : record.Url = converted.Url) :
    (Independent.prepareExtensionConfiguration env requiredExtension config).1 = .ok ∧
    (Independent.prepareExtensionConfiguration env requiredExtension config).2.Service =
      config.Service := by
  unfold Independent.prepareExtensionConfiguration Independent.devPrepareConfiguration
    Dev.ReadServiceConfiguration
  simp [hPrep, Context.record, hRead, hConv, hRecord, hUrl,
    (stringsCompare_eq_zero converted.Url converted.Url).mpr rfl]

/-- C13 fails on the code: the local record of the extension "ext" has port
81 and the descriptor converted from the dependency has the same url and port
80, yet `prepareExtensionConfiguration` returns no error (its port test
compares the port of the local record with itself); on the same input
`prepareProxyConfiguration` returns the port mismatch error. -/
theorem prepareExtensionConfiguration_accepts_port_mismatch :
    recordedConfig.Service.GetExtension "ext" = some { Url := "ext", Port := 81 } ∧
    quietEnv.ServiceToExtension storedExtension = .ok { Url := "ext", Port := 80 } ∧
    (Independent.prepareExtensionConfiguration quietEnv "ext" recordedConfig).1 = .ok ∧
    (Independent.prepareExtensionConfiguration quietEnv "ext" recordedConfig).2.Service =
      recordedConfig.Service ∧
    (Independent.prepareProxyConfiguration quietEnv "ext" recordedConfig).1 =
      .error "the proxy ports are not matching. in your configuration: 81, in the deps: 80" := by
  refine ⟨by decide, rfl, by decide, by decide, by decide⟩

/-- C19 fails on the code: the stored configuration of "proxy" contains the
destination controller and the local configuration contains the controller
"main", but the destination controller has no instance, and the lint panics
with an index out of range instead of returning. -/
theorem lint_panics_on_empty_instances :
    (∃ d, (KeyValue.Get noInstanceConfig.Context.Files "proxy").map
        (fun stored => stored.Controllers.find? (fun c => c.Name = Configuration.DestinationName)) =
      some (some d) ∧ d.Instances = []) ∧
    noInstanceConfig.Service.GetController "main" = .ok mainController ∧
    (Independent.preparePipelineConfiguration quietEnv noInstanceConfig "proxy" "main").1 =
      .panic "index out of range [0] with length 0" := by
  refine ⟨⟨{ Type_ := "REPLIER", Name := "destination", Instances := [] }, by decide, rfl⟩,
    (GetController_ok_iff _ _ _).mpr (by decide), by decide⟩

/-! ### Well-formed pipelines -/

theorem KeyValue.mem_Set {α : Type} (k : KeyValue α) (name : String) (value : α)
    (e : String × α) (h : e ∈ k.Set name value) : e = (name, value) ∨ e ∈ k := by
  induction k with
  | nil =>
    simp only [KeyValue.Set, List.mem_singleton] at h
    exact Or.inl h
  | cons x rest ih =>
    obtain ⟨n, v⟩ := x
    unfold KeyValue.Set at h
    by_cases hn : n = name
    · simp only [hn, if_true, List.mem_cons] at h
      rcases h with h | h
      · exact Or.inl h
      · exact Or.inr (List.mem_cons_of_mem _ h)
    · simp only [hn, if_false, List.mem_cons] at h
      rcases h with h | h
      · exact Or.inr (by simp [h])
      · rcases ih h with h | h
        · exact Or.inl h
        · exact Or.inr (List.mem_cons_of_mem _ h)

theorem KeyValue.Keys_Set {α : Type} (k : KeyValue α) (name : String) (value : α)
    (x : String) (h : x ∈ k.Keys) : x ∈ (k.Set name value).Keys := by
  induction k with
  | nil => simp [KeyValue.Keys] at h
  | cons e rest ih =>
    obtain ⟨n, v⟩ := e
    unfold KeyValue.Set
    by_cases hn : n = name
    · subst hn
      simpa [KeyValue.Keys] using h
    · simp only [KeyValue.Keys, List.map_cons, List.mem_cons] at h
      simp only [hn, if_false, KeyValue.Keys, List.map_cons, List.mem_cons]
      rcases h with h | h
      · exact Or.inl h
      · exact Or.inr (ih h)

/-- The orchestrator after a `Pipe` that passes both tests. -/
theorem Pipe_state_of_required (s : Independent.Service) (proxyUrl name : String)
    (hp : proxyUrl ∈ s.RequiredProxies) (hc : name ∈ s.Controllers.Keys) :
    (s.Pipe proxyUrl name).2 = { s with Pipelines := s.Pipelines.Set proxyUrl name } := by
  have hv := (validProxyLoop_iff proxyUrl s.RequiredProxies).mpr hp
  have he := KeyValue.Exist_of_mem s.Controllers name hc
  simp [Independent.Service.Pipe, hv, he]

theorem WellFormedPipelines_register (s : Independent.Service)
    (call : Independent.Registration) (h : WellFormedPipelines s) :
    WellFormedPipelines (s.register call) := by
  cases call with
  | addController name controller =>
    intro e he
    have := h e he
    exact ⟨this.1, KeyValue.Keys_Set _ _ _ _ this.2⟩
  | requireProxy url =>
    intro e he
    have := h e he
    exact ⟨List.mem_append_left _ this.1, this.2⟩
  | pipe proxyUrl name =>
    simp only [Independent.Service.register]
    by_cases hp : proxyUrl ∈ s.RequiredProxies
    · by_cases hc : name ∈ s.Controllers.Keys
      · rw [(Pipe_state_of_required s proxyUrl name hp hc)]
        intro e he
        rcases KeyValue.mem_Set _ _ _ _ he with he | he
        · subst he
          exact ⟨hp, hc⟩
        · exact h e he
      · have hv := (validProxyLoop_iff proxyUrl s.RequiredProxies).mpr hp
        have hx := KeyValue.Exist_of_not_mem s.Controllers name hc
        simpa [Independent.Service.Pipe, hv, hx] using h
    · have hv : Independent.validProxyLoop proxyUrl s.RequiredProxies = false := by
        cases hb : Independent.validProxyLoop proxyUrl s.RequiredProxies with
        | false => rfl
        | true => exact absurd ((validProxyLoop_iff _ _).mp hb) hp
      simpa [Independent.Service.Pipe, hv] using h

theorem WellFormedPipelines_registerAll (calls : List Independent.Registration)
    (s : Independent.Service) (h : WellFormedPipelines s) :
    WellFormedPipelines (s.registerAll calls) := by
  induction calls generalizing s with
  | nil => exact h
  | cons call rest ih => exact ih _ (WellFormedPipelines_register s call h)

/-- C17: in every orchestrator state reached from `New` by a sequence of
`AddController`, `RequireProxy` and `Pipe` calls, failing calls of `Pipe`
included, every entry `proxyUrl → controllerName` of `Pipelines` has
`proxyUrl` in `RequiredProxies` and `controllerName` among the names of
`Controllers`. -/
theorem pipelines_well_formed (config : Config) (s0 : Independent.Service)
    (calls : List Independent.Registration) (proxyUrl controllerName : String)
    (hNew : Independent.New config = .ok s0)
    (hEntry : (proxyUrl, controllerName) ∈ (s0.registerAll calls).Pipelines) :
    proxyUrl ∈ (s0.registerAll calls).RequiredProxies ∧
    controllerName ∈ (s0.registerAll calls).Controllers.Keys := by
  have h0 : WellFormedPipelines s0 := by
    simp only [Independent.New, Except.ok.injEq] at hNew
    subst hNew
    intro e he
    simp [KeyValue.Empty] at he
  exact WellFormedPipelines_registerAll calls s0 h0 _ hEntry

theorem pipelines_well_formed_witness :
    "proxy" ∈ (newState.registerAll registrationCalls).RequiredProxies ∧
    "main" ∈ (newState.registerAll registrationCalls).Controllers.Keys :=
  pipelines_well_formed emptyConfig newState registrationCalls "proxy" "main" rfl (by decide)

/-! ### The broadcaster -/

theorem runLoop_sends (zmq : AppBroadcast.Zmq) (msgs : List AppBroadcast.Message)
    (socket : AppBroadcast.Socket) :
    ∃ dequeued,
      msgs = dequeued ++ (AppBroadcast.runLoop zmq msgs socket).2.2 ∧
      (AppBroadcast.runLoop zmq msgs socket).2.1.Sent = socket.Sent ++ dequeued.map twoFrames ∧
      ((AppBroadcast.runLoop zmq msgs socket).1 = .waiting → dequeued = msgs) := by
  induction msgs generalizing socket with
  | nil => exact ⟨[], by simp [AppBroadcast.runLoop]⟩
  | cons m rest ih =>
    unfold AppBroadcast.runLoop
    cases hs : zmq.SendError socket [.text m.Topic, .bytes m.ToBytes] with
    | some err => exact ⟨[m], by simp [hs, twoFrames]⟩
    | none =>
      simp only [hs]
      obtain ⟨dequeued, h1, h2, h3⟩ := ih
        { socket with Sent := socket.Sent ++ [[.text m.Topic, .bytes m.ToBytes]] }
      refine ⟨m :: dequeued, ?_, ?_, ?_⟩
      · simpa using h1
      · simp only [h2]
        simp [twoFrames]
      · intro hw
        simpa using h3 hw

/-- `Run` hands to the socket, after what was sent before, exactly the
messages it received from `In`, each as the two parts `Topic`, `ToBytes()`,
one send per message and in the order of reception; the messages received are
an initial part of the messages `In` delivers, and all of them when the loop
ends up waiting for the next message. -/
theorem Run_sends_received (zmq : AppBroadcast.Zmq) (b : AppBroadcast.Broadcast) :
    ∃ dequeued,
      b.In = dequeued ++ (b.Run zmq).2.In ∧
      (b.Run zmq).2.socket.Sent = b.socket.Sent ++ dequeued.map twoFrames ∧
      ((b.Run zmq).1 = .waiting → dequeued = b.In) := by
  unfold AppBroadcast.Broadcast.Run
  cases hb : zmq.BindError b.socket ("tcp://*:" ++ b.BroadcastPort) with
  | some err => exact ⟨[], by simp [hb]⟩
  | none =>
    simp only [hb]
    obtain ⟨dequeued, h1, h2, h3⟩ := runLoop_sends zmq b.In
      { b.socket with Bound := b.socket.Bound ++ ["tcp://*:" ++ b.BroadcastPort] }
    exact ⟨dequeued, h1, h2, h3⟩

/-! ### The bounded queue -/

theorem Queue.Pop_concat {α : Type} (q : DataType.Queue α) (kept : List α) (x : α)
    (h : q.l = kept ++ [x]) : q.Pop = some (x, { q with l := kept }) := by
  unfold DataType.Queue.Pop
  rw [h, List.getLast?_concat]
  simp

theorem Queue.Push_not_full {α : Type} (q : DataType.Queue α) (item : α)
    (h : q.IsFull = false) : q.Push item = some { q with l := q.l ++ [item] } := by
  simp [DataType.Queue.Push, h]

theorem Queue.Push_full {α : Type} (q : DataType.Queue α) (item : α) (kept : List α) (x : α)
    (h : q.IsFull = true) (hl : q.l = kept ++ [x]) :
    q.Push item = some { q with l := kept ++ [item] } := by
  simp [DataType.Queue.Push, h, Queue.Pop_concat q kept x hl]

theorem Queue.full_concat {α : Type} (q : DataType.Queue α) (hi : QueueInvariant q)
    (h : q.IsFull = true) : q.l.length = 1000 ∧ ∃ kept x, q.l = kept ++ [x] := by
  have hlen : q.l.length = 1000 := by
    have := hi.1
    simp only [DataType.Queue.IsFull, beq_iff_eq] at h
    omega
  refine ⟨hlen, ?_⟩
  rcases List.eq_nil_or_concat q.l with h0 | ⟨kept, x, hk⟩
  · rw [h0] at hlen
    simp at hlen
  · exact ⟨kept, x, by simpa using hk⟩

theorem QueueInvariant_Push {α : Type} (q q1 : DataType.Queue α) (item : α)
    (hi : QueueInvariant q) (h : q.Push item = some q1) : QueueInvariant q1 := by
  cases hf : q.IsFull with
  | false =>
    rw [Queue.Push_not_full q item hf] at h
    simp only [Option.some.injEq] at h
    subst h
    have hne : q.l.length ≠ q.length := by
      simpa [DataType.Queue.IsFull] using hf
    have h1 := hi.1
    have h2 := hi.2
    refine ⟨h1, ?_⟩
    simp only [List.length_append, List.length_singleton]
    omega
  | true =>
    obtain ⟨hlen, kept, x, hk⟩ := Queue.full_concat q hi hf
    rw [Queue.Push_full q item kept x hf hk] at h
    simp only [Option.some.injEq] at h
    subst h
    refine ⟨hi.1, ?_⟩
    rw [hk] at hlen
    simp only [List.length_append, List.length_singleton] at hlen ⊢
    omega

theorem QueueInvariant_Pop {α : Type} (q q1 : DataType.Queue α) (x : α)
    (hi : QueueInvariant q) (h : q.Pop = some (x, q1)) : QueueInvariant q1 := by
  unfold DataType.Queue.Pop at h
  cases hg : q.l.getLast? with
  | none => simp [hg] at h
  | some item =>
    simp only [hg, Option.some.injEq, Prod.mk.injEq] at h
    obtain ⟨_, h⟩ := h
    subst h
    refine ⟨hi.1, ?_⟩
    have := hi.2
    simp only [List.length_dropLast]
    omega

theorem QueueInvariant_run {α : Type} (ops : List (DataType.QueueOp α))
    (q0 q : DataType.Queue α) (hi : QueueInvariant q0) (h : q0.run ops = some q) :
    QueueInvariant q := by
  induction ops generalizing q0 with
  | nil =>
    simp only [DataType.Queue.run, Option.some.injEq] at h
    subst h
    exact hi
  | cons op rest ih =>
    cases op with
    | push item =>
      unfold DataType.Queue.run at h
      cases hp : q0.Push item with
      | none => simp [hp] at h
      | some q1 =>
        simp only [hp] at h
        exact ih q1 (QueueInvariant_Push q0 q1 item hi hp) h
    | pop =>
      unfold DataType.Queue.run at h
      cases hp : q0.Pop with
      | none => simp [hp] at h
      | some r =>
        obtain ⟨x, q1⟩ := r
        simp only [hp] at h
        exact ih q1 (QueueInvariant_Pop q0 q1 x hi hp) h

/-- C20: in every queue state reached from `NewQueue` by `Push` calls and
`Pop` calls on a non-empty queue, `Len()` is at most 1000, and `Push` returns:
on a queue that is not full it appends the item, so `Len` grows by one and the
item is the last element; on a full queue `Len` is 1000 before and after, the
item is the last element, and of the elements stored before exactly one, the
last one, is gone. -/
theorem Queue_bounded {α : Type} (ops : List (DataType.QueueOp α)) (q : DataType.Queue α)
    (item : α) (h : (DataType.NewQueue : DataType.Queue α).run ops = some q) :
    q.Len ≤ 1000 ∧
    ∃ q1, q.Push item = some q1 ∧ q1.l.getLast? = some item ∧ q1.Len ≤ 1000 ∧
      (q.IsFull = false → q1.Len = q.Len + 1 ∧ q1.l = q.l ++ [item]) ∧
      (q.IsFull = true → q.Len = 1000 ∧ q1.Len = 1000 ∧
        ∃ kept x, q.l = kept ++ [x] ∧ q1.l = kept ++ [item]) := by
  have h0 : QueueInvariant (DataType.NewQueue : DataType.Queue α) :=
    ⟨rfl, by simp [DataType.NewQueue]⟩
  have hi := QueueInvariant_run ops _ q h0 h
  refine ⟨hi.2, ?_⟩
  cases hf : q.IsFull with
  | false =>
    have hp := Queue.Push_not_full q item hf
    have hi1 := QueueInvariant_Push q _ item hi hp
    refine ⟨_, hp, by simp, hi1.2, ?_, ?_⟩
    · intro _
      exact ⟨by simp [DataType.Queue.Len], rfl⟩
    · intro hc
      cases hc
  | true =>
    obtain ⟨hlen, kept, x, hk⟩ := Queue.full_concat q hi hf
    have hp := Queue.Push_full q item kept x hf hk
    have hi1 := QueueInvariant_Push q _ item hi hp
    refine ⟨_, hp, by simp, hi1.2, ?_, ?_⟩
    · intro hc
      cases hc
    · intro _
      refine ⟨hlen, ?_, kept, x, hk, rfl⟩
      rw [hk] at hlen
      simp only [List.length_append, List.length_singleton] at hlen
      simp only [DataType.Queue.Len, List.length_append, List.length_singleton]
      omega

theorem Queue_bounded_witness :
    (DataType.NewQueue.run queueCalls = some { l := [7, 9], length := 1000 }) ∧
    (({ l := [7, 9], length := 1000 } : DataType.Queue Nat).Len ≤ 1000 ∧
      ∃ q1, ({ l := [7, 9], length := 1000 } : DataType.Queue Nat).Push 5 = some q1 ∧
        q1.l.getLast? = some 5 ∧ q1.Len ≤ 1000 ∧
        (({ l := [7, 9], length := 1000 } : DataType.Queue Nat).IsFull = false →
          q1.Len = ({ l := [7, 9], length := 1000 } : DataType.Queue Nat).Len + 1 ∧
          q1.l = [7, 9] ++ [5]) ∧
        (({ l := [7, 9], length := 1000 } : DataType.Queue Nat).IsFull = true →
          ({ l := [7, 9], length := 1000 } : DataType.Queue Nat).Len = 1000 ∧ q1.Len = 1000 ∧
          ∃ kept x, [7, 9] = kept ++ [x] ∧ q1.l = kept ++ [5])) :=
  ⟨by decide, Queue_bounded queueCalls { l := [7, 9], length := 1000 } 5 (by decide)⟩

/-- Whenever the stored configuration is read and both controllers are found,
an empty instance list on either side makes the lint panic. -/
theorem lint_panics_of_no_instance (env : Env) (config : Config)
    (proxyUrl controllerName : String) (proxyConfig : Configuration.Service)
    (destinationConfig controllerConfig : Configuration.Controller)
    (hStored : config.Context.Files.Get proxyUrl = some proxyConfig)
    (hDest : proxyConfig.GetController Configuration.DestinationName = .ok destinationConfig)
    (hLocal : config.Service.GetController controllerName = .ok controllerConfig)
    (hEmpty : destinationConfig.Instances = [] ∨ controllerConfig.Instances = []) :
    (Independent.preparePipelineConfiguration env config proxyUrl controllerName).1 =
      .panic "index out of range [0] with length 0" := by
  unfold Independent.preparePipelineConfiguration Dev.ReadServiceConfiguration
  simp only [hStored, hDest, hLocal]
  rcases hEmpty with h | h
  · simp [h]
  · cases hd : destinationConfig.Instances[0]? with
    | none => simp [hd]
    | some d => simp [hd, h]

/-! ### The SQL filter -/

theorem countChar_append (c : Char) (a b : String) :
    countChar c (a ++ b) = countChar c a + countChar c b := by
  simp [countChar, String.data_append, List.count_append]

theorem countChar_empty (c : Char) : countChar c "" = 0 := rfl

theorem countChar_stringsRepeat_placeholder (n : Nat) :
    countChar '?' (StaticConfiguration.stringsRepeat ",?" n) = n := by
  induction n with
  | zero => rfl
  | succ n ih =>
    rw [StaticConfiguration.stringsRepeat, countChar_append, ih]
    have : countChar '?' ",?" = 1 := by decide
    omega

theorem countChar_stringsRepeat_bracket (n : Nat) :
    countChar '(' (StaticConfiguration.stringsRepeat ",?" n) = 0 := by
  induction n with
  | zero => rfl
  | succ n ih =>
    rw [StaticConfiguration.stringsRepeat, countChar_append, ih]
    decide

/-- A clause has as many placeholders as its field has values, when its
opening has exactly one. -/
theorem countChar_inClause_placeholder (opening : String) (values : List String)
    (h : countChar '?' opening = 1) :
    countChar '?' (inClause opening values) = values.length := by
  unfold inClause
  cases values with
  | nil => rfl
  | cons v rest =>
    simp only [reduceCtorEq, if_false, List.length_cons, Nat.add_sub_cancel]
    rw [countChar_append, countChar_append, countChar_stringsRepeat_placeholder, h]
    have : countChar '?' ")" = 0 := by decide
    omega

/-- A clause has one opening bracket when its field is not empty and none
otherwise, when its opening has exactly one. -/
theorem countChar_inClause_bracket (opening : String) (values : List String)
    (h : countChar '(' opening = 1) :
    countChar '(' (inClause opening values) = if values = [] then 0 else 1 := by
  unfold inClause
  cases values with
  | nil => rfl
  | cons v rest =>
    simp only [reduceCtorEq, if_false, List.length_cons, Nat.add_sub_cancel]
    rw [countChar_append, countChar_append, countChar_stringsRepeat_bracket, h]
    decide

/-- The fragment is the five clauses in the order of the source, and the
arguments are the five lists in that order. -/
theorem query_parameters_eq (t : StaticConfiguration.TopicFilter) :
    StaticConfiguration.query_parameters t =
      (inClause " AND c.organization IN (?" t.Organizations ++
        inClause " AND c.project IN (?" t.Projects ++
        inClause " AND c.network_id IN (?" t.NetworkIds ++
        inClause " AND c.group_name IN (?" t.Groups ++
        inClause " AND c.smartcontract_name IN (?" t.Smartcontracts,
       t.Organizations ++ t.Projects ++ t.NetworkIds ++ t.Groups ++ t.Smartcontracts) := by
  obtain ⟨o, p, n, g, s⟩ := t
  cases o <;> cases p <;> cases n <;> cases g <;> cases s <;>
    simp [StaticConfiguration.query_parameters, inClause, String.append_assoc]

/-- C21: for every topic filter, the fragment returned by `query_parameters`
has as many `?` placeholders as the returned list has arguments; the
arguments are `Organizations`, `Projects`, `NetworkIds`, `Groups` and
`Smartcontracts` concatenated in that order; the fragment is made of one
` AND c.<column> IN (?,...,?)` clause for each field that is not empty, in the
same order, and of nothing for an empty field, so it has one opening bracket
per non-empty field; and the filter with five empty fields gives the empty
fragment and no argument. -/
theorem query_parameters_aligned (t : StaticConfiguration.TopicFilter) :
    countChar '?' (StaticConfiguration.query_parameters t).1 =
      (StaticConfiguration.query_parameters t).2.length ∧
    (StaticConfiguration.query_parameters t).2 =
      t.Organizations ++ t.Projects ++ t.NetworkIds ++ t.Groups ++ t.Smartcontracts ∧
    (StaticConfiguration.query_parameters t).1 =
      inClause " AND c.organization IN (?" t.Organizations ++
      inClause " AND c.project IN (?" t.Projects ++
      inClause " AND c.network_id IN (?" t.NetworkIds ++
      inClause " AND c.group_name IN (?" t.Groups ++
      inClause " AND c.smartcontract_name IN (?" t.Smartcontracts ∧
    countChar '(' (StaticConfiguration.query_parameters t).1 =
      (if t.Organizations = [] then 0 else 1) + (if t.Projects = [] then 0 else 1) +
      (if t.NetworkIds = [] then 0 else 1) + (if t.Groups = [] then 0 else 1) +
      (if t.Smartcontracts = [] then 0 else 1) ∧
    StaticConfiguration.query_parameters
      { Organizations := [], Projects := [], NetworkIds := [], Groups := [],
        Smartcontracts := [] } = ("", []) := by
  rw [query_parameters_eq t]
  refine ⟨?_, rfl, rfl, ?_, by decide⟩
  · simp only [countChar_append, List.length_append]
    rw [countChar_inClause_placeholder _ _ (by decide),
      countChar_inClause_placeholder _ _ (by decide),
      countChar_inClause_placeholder _ _ (by decide),
      countChar_inClause_placeholder _ _ (by decide),
      countChar_inClause_placeholder _ _ (by decide)]
  · simp only [countChar_append]
    rw [countChar_inClause_bracket _ _ (by decide),
      countChar_inClause_bracket _ _ (by decide),
      countChar_inClause_bracket _ _ (by decide),
      countChar_inClause_bracket _ _ (by decide),
      countChar_inClause_bracket _ _ (by decide)]

theorem query_parameters_aligned_witness :
    StaticConfiguration.query_parameters seascapeFilter =
      (" AND c.organization IN (?) AND c.network_id IN (?,?)", ["seascape", "1", "56"]) ∧
    countChar '?' (StaticConfiguration.query_parameters seascapeFilter).1 =
      (StaticConfiguration.query_parameters seascapeFilter).2.length ∧
    countChar '(' (StaticConfiguration.query_parameters seascapeFilter).1 = 2 :=
  ⟨by decide, (query_parameters_aligned seascapeFilter).1,
    (query_parameters_aligned seascapeFilter).2.2.2.1⟩

/-! ### The broadcaster: every delivered message is sent -/

theorem sentAfter_nil (socket : AppBroadcast.Socket) : sentAfter socket [] = socket := by
  simp [sentAfter]

theorem sentAfter_cons (socket : AppBroadcast.Socket) (m : AppBroadcast.Message)
    (msgs : List AppBroadcast.Message) :
    sentAfter socket (m :: msgs) =
      sentAfter { socket with Sent := socket.Sent ++ [twoFrames m] } msgs := by
  simp [sentAfter]

/-- The loop of `Run`, as long as the sends succeed: when the first `k`
sends succeed, the loop either has sent all `k` delivered messages and waits,
or stops at the failing send of message `k`, which is the last one handed to
the socket. -/
theorem runLoop_progress (zmq : AppBroadcast.Zmq) (msgs : List AppBroadcast.Message)
    (socket : AppBroadcast.Socket) (k : Nat)
    (hOk : ∀ i m, i < k → msgs[i]? = some m →
      zmq.SendError (sentAfter socket (msgs.take i)) (twoFrames m) = none) :
    (k = msgs.length →
      AppBroadcast.runLoop zmq msgs socket = (.waiting, sentAfter socket msgs, [])) ∧
    (∀ m err, msgs[k]? = some m →
      zmq.SendError (sentAfter socket (msgs.take k)) (twoFrames m) = some err →
      AppBroadcast.runLoop zmq msgs socket =
        (.fatal ("socket error to send message: " ++ err),
          sentAfter socket (msgs.take (k + 1)), msgs.drop (k + 1))) := by
  induction msgs generalizing socket k with
  | nil =>
    refine ⟨fun _ => by simp [AppBroadcast.runLoop, sentAfter_nil], ?_⟩
    intro m err hm
    simp at hm
  | cons m0 rest ih =>
    cases k with
    | zero =>
      refine ⟨fun h => by simp at h, ?_⟩
      intro m err hm hs
      simp only [List.getElem?_cons_zero, Option.some.injEq] at hm
      subst hm
      simp only [List.take_zero, sentAfter_nil] at hs
      unfold AppBroadcast.runLoop
      have hs1 : zmq.SendError socket [.text m0.Topic, .bytes m0.ToBytes] = some err := hs
      simp [hs1, sentAfter, twoFrames]
    | succ k1 =>
      have h0 : zmq.SendError socket [.text m0.Topic, .bytes m0.ToBytes] = none := by
        have := hOk 0 m0 (by omega) (by simp)
        simpa [sentAfter_nil] using this
      have hstep : AppBroadcast.runLoop zmq (m0 :: rest) socket =
          AppBroadcast.runLoop zmq rest { socket with Sent := socket.Sent ++ [twoFrames m0] } := by
        rw [AppBroadcast.runLoop]
        simp [h0, twoFrames]
      have hOk1 : ∀ i m, i < k1 → rest[i]? = some m →
          zmq.SendError
            (sentAfter { socket with Sent := socket.Sent ++ [twoFrames m0] } (rest.take i))
            (twoFrames m) = none := by
        intro i m hi hm
        have := hOk (i + 1) m (by omega) (by simpa using hm)
        simpa [sentAfter_cons] using this
      obtain ⟨ihA, ihB⟩ := ih { socket with Sent := socket.Sent ++ [twoFrames m0] } k1 hOk1
      refine ⟨?_, ?_⟩
      · intro hk
        rw [hstep, ihA (by simpa using hk), sentAfter_cons]
      · intro m err hm hs
        rw [hstep, List.take_succ_cons, sentAfter_cons, List.drop_succ_cons]
        apply ihB m err (by simpa using hm)
        simpa [sentAfter_cons] using hs

/-- C18: when `Bind` succeeds and the first `k` sends succeed, `Run` has
handed to the socket, after what was sent before, the first `k` messages that
`In` delivers, each as the two frames `Topic`, `ToBytes()`, one send per
message and in the order of delivery.  If these are all the messages, the
loop waits for the next one with every delivered message sent and none left;
if the send of message `k` fails, that message is the last one handed to the
socket and `Run` ends with `Fatal`, the later messages never being
received. -/
theorem Run_sends_in_order (zmq : AppBroadcast.Zmq) (b : AppBroadcast.Broadcast) (k : Nat)
    (hBind : zmq.BindError b.socket ("tcp://*:" ++ b.BroadcastPort) = none)
    (hOk : ∀ i m, i < k → b.In[i]? = some m →
      zmq.SendError (socketAfter b i) (twoFrames m) = none) :
    (k = b.In.length →
      b.Run zmq = (.waiting, { b with socket := socketAfter b k, In := [] }) ∧
      (b.Run zmq).2.socket.Sent = b.socket.Sent ++ b.In.map twoFrames) ∧
    (∀ m err, b.In[k]? = some m →
      zmq.SendError (socketAfter b k) (twoFrames m) = some err →
      b.Run zmq = (.fatal ("socket error to send message: " ++ err),
        { b with socket := socketAfter b (k + 1), In := b.In.drop (k + 1) }) ∧
      (b.Run zmq).2.socket.Sent = b.socket.Sent ++ (b.In.take (k + 1)).map twoFrames) := by
  obtain ⟨hA, hB⟩ := runLoop_progress zmq b.In
    { b.socket with Bound := b.socket.Bound ++ ["tcp://*:" ++ b.BroadcastPort] } k hOk
  have hrun : b.Run zmq =
      ((AppBroadcast.runLoop zmq b.In
          { b.socket with Bound := b.socket.Bound ++ ["tcp://*:" ++ b.BroadcastPort] }).1,
        { b with
          socket := (AppBroadcast.runLoop zmq b.In
            { b.socket with Bound := b.socket.Bound ++ ["tcp://*:" ++ b.BroadcastPort] }).2.1,
          In := (AppBroadcast.runLoop zmq b.In
            { b.socket with Bound := b.socket.Bound ++ ["tcp://*:" ++ b.BroadcastPort] }).2.2 }) := by
    unfold AppBroadcast.Broadcast.Run
    simp only [hBind]
  refine ⟨?_, ?_⟩
  · intro hk
    have h1 := hA hk
    have h2 : b.Run zmq = (.waiting, { b with socket := socketAfter b k, In := [] }) := by
      rw [hrun, h1, hk]
      simp [socketAfter]
    refine ⟨h2, ?_⟩
    rw [h2, hk]
    simp [socketAfter, sentAfter]
  · intro m err hm hs
    have h1 := hB m err hm hs
    have h2 : b.Run zmq = (.fatal ("socket error to send message: " ++ err),
        { b with socket := socketAfter b (k + 1), In := b.In.drop (k + 1) }) := by
      rw [hrun, h1]
      rfl
    refine ⟨h2, ?_⟩
    rw [h2]
    simp [socketAfter, sentAfter]

theorem Run_sends_in_order_witness :
    (twoMessages.Run okZmq =
        (.waiting, { twoMessages with socket := socketAfter twoMessages 2, In := [] }) ∧
      (twoMessages.Run okZmq).2.socket.Sent =
        twoMessages.socket.Sent ++ twoMessages.In.map twoFrames) ∧
    (twoMessages.Run okZmq).2.socket.Sent =
      [[.text "t1", .bytes [0x01, 0x02]], [.text "t2", .bytes [0x03]]] ∧
    (twoMessages.Run secondSendFails =
        (.fatal ("socket error to send message: " ++ "no peer"),
          { twoMessages with socket := socketAfter twoMessages (1 + 1),
                             In := twoMessages.In.drop (1 + 1) }) ∧
      (twoMessages.Run secondSendFails).2.socket.Sent =
        twoMessages.socket.Sent ++ (twoMessages.In.take (1 + 1)).map twoFrames) :=
  ⟨(Run_sends_in_order okZmq twoMessages 2 rfl (fun _ _ _ _ => rfl)).1 rfl,
   by decide,
   (Run_sends_in_order secondSendFails twoMessages 1 rfl
      (fun i m hi _ => by
        have h0 : i = 0 := by omega
        subst h0
        rfl)).2
      { Topic := "t2", Payload := [0x03] } "no peer" rfl rfl⟩

/-- When `Bind` fails, `Run` ends with `Fatal` before the loop: nothing is
received and nothing is sent. -/
theorem Run_bind_fails (zmq : AppBroadcast.Zmq) (b : AppBroadcast.Broadcast) (err : String)
    (hBind : zmq.BindError b.socket ("tcp://*:" ++ b.BroadcastPort) = some err) :
    b.Run zmq = (.fatal ("could not listen to publisher: " ++ err),
      { b with socket := { b.socket with
          Bound := b.socket.Bound ++ ["tcp://*:" ++ b.BroadcastPort] } }) := by
  unfold AppBroadcast.Broadcast.Run
  simp only [hBind]

end LogLib
